import Mathlib

/-!
Shallow embedding of the QEMU hypervisor controller of kata-runtime
(virtcontainers/qemu.go and virtcontainers/qemu_arch_base.go), together with
proofs of the behavioural properties claimed for it.

Machine integers of the Go source (`uint32`, `int`) are embedded as `Nat` or
`Int`; the single place where unsigned wrap-around can matter
(`DefaultMaxVCPUs - currentVCPUs` in `hotplugAddCPUs`) performs the
subtraction modulo `2^32` explicitly.  Fallible Go calls return
`Except String`/`Option`; external effects (QMP commands, file reads) are
supplied by explicit environment records, and the QMP commands a flow issues
are collected in an explicit trace.
-/

namespace KataQemu

/-- A kernel parameter `Key`/`Value` pair (virtcontainers `Param`). -/
structure Param where
  key : String
  value : String
  deriving Repr, DecidableEq

/-- Modelled from the spec: `SerializeParams` (defined in
`virtcontainers/hypervisor.go`, which is not part of the sources) produces the
`key=value` serialization of each parameter, the delimiter being the caller's
choice; the spec calls it "the space-joined key=value serialization". -/
def SerializeParams (params : List Param) (delim : String) : List String :=
  params.map (fun p => p.key ++ delim ++ p.value)

/-- `strconv.FormatBool`. -/
def formatBool (b : Bool) : String :=
  if b then "true" else "false"

/-- The block-device driver choice (`config.BlockDeviceDriver`). -/
inductive BlockDeviceDriver where
  | VirtioSCSI
  | VirtioBlock
  | VirtioBlockCCW
  | Nvdimm
  deriving Repr, DecidableEq

/-- Name of a block-device driver, used in the unrecognized-driver error. -/
def BlockDeviceDriver.name : BlockDeviceDriver → String
  | .VirtioSCSI => "virtio-scsi"
  | .VirtioBlock => "virtio-blk"
  | .VirtioBlockCCW => "virtio-blk-ccw"
  | .Nvdimm => "nvdimm"

/-- The shared-filesystem choice (`config.SharedFS`). -/
inductive SharedFSType where
  | NoSharedFS
  | Virtio9P
  | VirtioFS
  deriving Repr, DecidableEq

/-- The subset of `HypervisorConfig` the embedded operations consume. -/
structure HypervisorConfig where
  NumVCPUs : Nat := 0
  DefaultMaxVCPUs : Nat := 0
  MemorySize : Nat := 0
  MemSlots : Nat := 0
  Debug : Bool := false
  UseVSock : Bool := false
  KernelParams : List Param := []
  BlockDeviceDriver : BlockDeviceDriver := .VirtioSCSI
  BlockDeviceCacheSet : Bool := false
  BlockDeviceCacheDirect : Bool := false
  BlockDeviceCacheNoflush : Bool := false
  SharedFS : SharedFSType := .NoSharedFS
  FileBackedMemRootDir : String := ""
  BootToBeTemplate : Bool := false
  BootFromTemplate : Bool := false
  MemoryPath : String := ""
  HugePages : Bool := false
  MemPrealloc : Bool := false
  Realtime : Bool := false
  Mlock : Bool := false
  MachineAccelerators : String := ""
  deriving Repr, DecidableEq

/-- `defaultKernelParameters` of qemu.go: the agnostic kernel parameters. -/
def defaultKernelParameters : List Param := [⟨"panic", "1"⟩]

/-- `vsockKernelOption` of qemu.go. -/
def vsockKernelOption : String := "agent.use_vsock"

/-- The three kernel-parameter lists a `qemuArchBase` carries
(`kernelParams`, `kernelParamsDebug`, `kernelParamsNonDebug`). -/
structure ArchKernelParams where
  kernelParams : List Param := []
  kernelParamsDebug : List Param := []
  kernelParamsNonDebug : List Param := []
  deriving Repr

/-- `qemuArchBase.kernelParameters(debug)`: the arch parameter list followed by
the debug or the non-debug list, depending on the flag. -/
def archKernelParameters (a : ArchKernelParams) (debug : Bool) : List Param :=
  a.kernelParams ++ (if debug then a.kernelParamsDebug else a.kernelParamsNonDebug)

/-- `qemu.kernelParameters()`: arch parameters, then `panic=1`, then
`nr_cpus=<DefaultMaxVCPUs>`, then `agent.use_vsock=<UseVSock>`, then the
user-supplied parameters, serialized `key=value` and joined by spaces. -/
def kernelParameters (arch : ArchKernelParams) (cfg : HypervisorConfig) : String :=
  let params := archKernelParameters arch cfg.Debug
  let params := params ++ defaultKernelParameters
  let params := params ++ [⟨"nr_cpus", toString cfg.DefaultMaxVCPUs⟩]
  let params := params ++ [⟨vsockKernelOption, formatBool cfg.UseVSock⟩]
  let params := params ++ cfg.KernelParams
  String.intercalate " " (SerializeParams params "=")

/-! ### Hexadecimal formatting (`fmt.Sprintf("%02x", ·)` / `"%04x"`) -/

/-- Fuel-driven digit extraction for `hexDigits`; the fuel always suffices
when it exceeds `n`. -/
def hexDigitsAux : Nat → Nat → List Char
  | _, 0 => []
  | n, fuel + 1 =>
    if n < 16 then [Nat.digitChar n]
    else hexDigitsAux (n / 16) fuel ++ [Nat.digitChar (n % 16)]

/-- The minimal lower-case hexadecimal digit string of `n`, as a character
list (the digits `fmt.Sprintf("%x", n)` prints). -/
def hexDigits (n : Nat) : List Char :=
  hexDigitsAux n (n + 1)

/-- `fmt.Sprintf("%0<width>x", n)`: the hex digits of `n`, left-padded with
`'0'` to at least `width` characters. -/
def fmtHexPad (width n : Nat) : String :=
  String.mk (List.replicate (width - (hexDigits n).length) '0' ++ hexDigits n)

/-- Recognizer for a lower-case hexadecimal digit character. -/
def isHexDigitChar (c : Char) : Bool :=
  c.isDigit || ("abcdef".toList.contains c)

theorem hexDigits_ne_nil (n : Nat) : hexDigits n ≠ [] := by
  rw [hexDigits, hexDigitsAux]
  split <;> simp

theorem hexDigitsAux_length_le :
    ∀ (fuel n k : Nat), n < fuel → 1 ≤ k → n < 16 ^ k →
      (hexDigitsAux n fuel).length ≤ k := by
  intro fuel
  induction fuel with
  | zero => intro n k h; omega
  | succ fuel ih =>
    intro n k _ hk h
    rw [hexDigitsAux]
    split
    · simpa using hk
    · rename_i hn
      push_neg at hn
      simp only [List.length_append, List.length_singleton]
      have hk2 : 2 ≤ k := by
        by_contra hcon
        have hk1 : k = 1 := by omega
        subst hk1
        norm_num at h
        omega
      have hdiv : n / 16 < 16 ^ (k - 1) := by
        rw [Nat.div_lt_iff_lt_mul (by norm_num)]
        calc n < 16 ^ k := h
          _ = 16 ^ (k - 1) * 16 := by
              rw [← pow_succ]
              congr 1
              omega
      have hfuel : n / 16 < fuel := by
        have := Nat.div_lt_self (show 0 < n by omega) (show 1 < 16 by norm_num)
        omega
      have := ih (n / 16) (k - 1) hfuel (by omega) hdiv
      omega

theorem hexDigits_length_le (k : Nat) :
    ∀ n, 1 ≤ k → n < 16 ^ k → (hexDigits n).length ≤ k := fun n hk h =>
  hexDigitsAux_length_le (n + 1) n k (by omega) hk h

theorem hexDigitsAux_all_hex :
    ∀ (fuel n : Nat), ∀ c ∈ hexDigitsAux n fuel, isHexDigitChar c = true := by
  have base : ∀ m, m < 16 → isHexDigitChar (Nat.digitChar m) = true := by decide
  intro fuel
  induction fuel with
  | zero => intro n c hc; simp [hexDigitsAux] at hc
  | succ fuel ih =>
    intro n c hc
    rw [hexDigitsAux] at hc
    split at hc
    · rename_i h
      simp only [List.mem_singleton] at hc
      exact hc ▸ base n h
    · rcases List.mem_append.mp hc with h1 | h2
      · exact ih (n / 16) c h1
      · simp only [List.mem_singleton] at h2
        exact h2 ▸ base (n % 16) (Nat.mod_lt n (by norm_num))

theorem hexDigits_all_hex (n : Nat) : ∀ c ∈ hexDigits n, isHexDigitChar c = true :=
  hexDigitsAux_all_hex (n + 1) n

/-- When `n < 16 ^ w` (and `w ≥ 1`), `fmtHexPad w n` is exactly `w`
characters long and each character is a hexadecimal digit. -/
theorem fmtHexPad_spec (w n : Nat) (hw : 1 ≤ w) (h : n < 16 ^ w) :
    (fmtHexPad w n).length = w ∧
      ∀ c ∈ (fmtHexPad w n).toList, isHexDigitChar c = true := by
  have hlen := hexDigits_length_le w n hw h
  constructor
  · show (String.mk _).length = w
    simp only [String.length, List.length_append, List.length_replicate]
    omega
  · intro c hc
    show isHexDigitChar c = true
    simp only [fmtHexPad, String.toList] at hc
    rcases List.mem_append.mp hc with h1 | h2
    · rw [List.eq_of_mem_replicate h1]; decide
    · exact hexDigits_all_hex n c h2

/-! ### Bridges (`types.Bridge` and the `qemuArchBase` slot allocator) -/

/-- The bus type of a bridge (`types.Type`). -/
inductive BusType where
  | PCI
  | PCIE
  | CCW
  deriving Repr, DecidableEq

/-- A virtual bridge.  `devices` is the slot-index → device-id map of the Go
`Bridge.Devices` map, embedded as an association list. -/
structure Bridge where
  typ : BusType
  id : String
  addr : Nat
  maxCapacity : Nat
  devices : List (Nat × String)
  deriving Repr, DecidableEq

/-- Modelled from the spec: `types.Bridge.AddDevice` (the `types` package is
not part of the sources) scans the bridge for "the first free slot"; slot `0`
is reserved, so slots `1 .. maxCapacity` are probed in order.  On success the
mapping `slot ↦ ID` is added; with no free slot the bridge is left unchanged
and the allocation fails. -/
def Bridge.AddDevice (b : Bridge) (ID : String) : Option (Nat × Bridge) :=
  match (List.range' 1 b.maxCapacity).find? (fun i => ! b.devices.any (·.1 == i)) with
  | none => none
  | some slot => some (slot, { b with devices := (slot, ID) :: b.devices })

/-- Modelled from the spec: `types.Bridge.RemoveDevice` "searches … and
removes the mapping; releasing an unknown id is a hard error".  The first
mapping carrying `ID` is removed. -/
def Bridge.RemoveDevice (b : Bridge) (ID : String) : Option Bridge :=
  if b.devices.any (·.2 == ID) then
    some { b with devices := b.devices.eraseP (·.2 == ID) }
  else
    none

/-- `qemuArchBase.addDeviceToBridge`: scan the bridges of the requested type
in declaration order, allocate a slot on the first one that has room, and
return the slot formatted per bus type (`%04x` for CCW, `%02x` for PCI/PCIe)
together with the chosen bridge and the updated bridge list. -/
def addDeviceToBridgeLoop (ID : String) (t : BusType) :
    List Bridge → Option (String × Bridge × List Bridge)
  | [] => none
  | b :: rest =>
    if t ≠ b.typ then
      match addDeviceToBridgeLoop ID t rest with
      | none => none
      | some (s, br, rest') => some (s, br, b :: rest')
    else
      match b.AddDevice ID with
      | some (addr, b') =>
        match t with
        | .CCW => some (fmtHexPad 4 addr, b', b' :: rest)
        | .PCI | .PCIE => some (fmtHexPad 2 addr, b', b' :: rest)
      | none =>
        match addDeviceToBridgeLoop ID t rest with
        | none => none
        | some (s, br, rest') => some (s, br, b :: rest')

/-- `qemuArchBase.addDeviceToBridge`, with the two error messages of the
source: an empty bridge list and exhausted slots are reported differently. -/
def addDeviceToBridge (bridges : List Bridge) (ID : String) (t : BusType) :
    Except String (String × Bridge × List Bridge) :=
  if bridges.isEmpty then
    .error "failed to get available address from bridges"
  else
    match addDeviceToBridgeLoop ID t bridges with
    | some r => .ok r
    | none => .error "no more bridge slots available"

/-- `qemuArchBase.removeDeviceFromBridge`: try `RemoveDevice` on each bridge
in order, returning on the first success; otherwise return the last error
(`none` here denotes the nil error a loop over zero bridges produces). -/
def removeDeviceFromBridgeLoop (ID : String) :
    List Bridge → Option String → Option String × List Bridge
  | [], lastErr => (lastErr, [])
  | b :: rest, _ =>
    match b.RemoveDevice ID with
    | some b' => (none, b' :: rest)
    | none =>
      let r := removeDeviceFromBridgeLoop ID rest
        (some ("Unable to remove device " ++ ID ++ " from bridge " ++ b.id))
      (r.1, b :: r.2)

/-- `qemuArchBase.removeDeviceFromBridge` over the full bridge list. -/
def removeDeviceFromBridge (bridges : List Bridge) (ID : String) :
    Option String × List Bridge :=
  removeDeviceFromBridgeLoop ID bridges none

/-! ### QMP command traces and session setup -/

/-- The externally visible actions a flow performs: one constructor per QMP
command issued by the embedded operations, plus `storeState` for a
persistence write. -/
inductive Cmd where
  | qmpCapabilities
  | blockdevAdd (file id : String)
  | blockdevAddWithCache (file id : String) (direct noflush : Bool)
  | blockdevDel (id : String)
  | nvdimmDeviceAdd (id file : String) (size : Int)
  | deviceAdd (blockdevID devID driver addr : String)
  | deviceDel (id : String)
  | pciDeviceAdd (blockdevID devID driver addr busID : String)
  | scsiDeviceAdd (blockdevID devID driver bus : String) (scsiID lun : Int)
  | vfioDeviceAdd (devID bdf : String)
  | pciVfioDeviceAdd (devID bdf addr busID : String)
  | pciVfioMediatedDeviceAdd (devID sysfsDev addr busID : String)
  | getFD (name : String)
  | netdevAdd (name : String)
  | netdevDel (name : String)
  | netCCWDeviceAdd (name devID devNo : String)
  | netPCIDeviceAdd (name devID addr busID : String)
  | cpuDeviceAdd (driver cpuID socketID dieID coreID threadID : String)
  | queryHotpluggableCPUs
  | queryMemoryDevices
  | hotplugMemoryCmd (backend id target : String) (size : Int) (share : Bool)
  | quit
  | storeState
  deriving Repr, DecidableEq

/-- Oracle for `qmpSetup`: whether `QMPStart` and the capability negotiation
would succeed. -/
structure QmpEnv where
  startOk : Bool := true
  capsOk : Bool := true
  deriving Repr

/-- The mutable controller state: the Go `QemuState` fields the embedded
operations touch, plus the connection flag of `qmpMonitorCh`, the `nvdimmCount`
and `stopped` fields of `qemu`. -/
structure QemuState where
  bridges : List Bridge := []
  hotpluggedVCPUs : List String := []
  hotpluggedMemory : Int := 0
  hotplugVFIOOnRootBus : Bool := false
  nvdimmCount : Nat := 0
  connected : Bool := false
  stopped : Bool := false
  deriving Repr, DecidableEq

/-- `qemu.qmpSetup`: a no-op when the channel exists; otherwise connect and
negotiate capabilities, failing on either step. -/
def qmpSetup (env : QmpEnv) (connected : Bool) : Option String × Bool × List Cmd :=
  if connected then (none, connected, [])
  else if !env.startOk then (some "Failed to connect to QEMU instance", false, [])
  else if env.capsOk then (none, true, [Cmd.qmpCapabilities])
  else (some "Failed to negoatiate QMP capabilities", false, [Cmd.qmpCapabilities])

/-- The hotplug operation selector (`operation` in qemu.go). -/
inductive Operation where
  | addDevice
  | removeDevice
  deriving Repr, DecidableEq

/-! ### `stopSandbox` -/

/-- Oracle for `stopSandbox`: the session oracle plus the outcome of the QMP
`quit` command. -/
structure StopEnv where
  qmp : QmpEnv := {}
  quitOk : Bool := true
  deriving Repr

/-- `qemu.stopSandbox`.  Returns the error, the post state, the QMP commands
issued, and whether `cleanupVM` ran.  When the instance is already stopped the
call returns immediately; otherwise a deferred block runs `cleanupVM` and sets
`stopped` on every exit path. -/
def stopSandbox (env : StopEnv) (st : QemuState) :
    Option String × QemuState × List Cmd × Bool :=
  if st.stopped then (none, st, [], false)
  else
    let (e, conn, tr) := qmpSetup env.qmp st.connected
    let st' := { st with connected := conn, stopped := true }
    match e with
    | some err => (some err, st', tr, true)
    | none =>
      if env.quitOk then (none, st', tr ++ [Cmd.quit], true)
      else (some "Fail to execute qmp QUIT", st', tr ++ [Cmd.quit], true)

/-! ### Block-device hotplug -/

/-- The fields of `config.BlockDrive` the flow reads or writes. -/
structure BlockDrive where
  File : String := ""
  ID : String := ""
  Index : Int := 0
  PCIAddr : String := ""
  DevNo : String := ""
  NvdimmID : String := ""
  deriving Repr, DecidableEq

/-- Modelled from the spec: `types.Bridge.AddressFormatCCW` (the `types`
package is not part of the sources) renders the guest CCW address
`fe.<bridge-addr hex>.<slot>`, and only CCW bridges support it. -/
def Bridge.AddressFormatCCW (b : Bridge) (addr : String) : Except String String :=
  if b.typ = .CCW then .ok ("fe." ++ String.mk (hexDigits b.addr) ++ "." ++ addr)
  else .error "Expected CCW bridge type"

/-- Modelled from the spec: `types.Bridge.AddressFormatCCWForVirtServer`
renders the virtio-server form of the CCW address, again CCW-only. -/
def Bridge.AddressFormatCCWForVirtServer (b : Bridge) (addr : String) : Except String String :=
  if b.typ = .CCW then .ok ("0." ++ String.mk (hexDigits b.addr) ++ "." ++ addr)
  else .error "Expected CCW bridge type"

/-- Modelled from the spec: `utils.GetSCSIIdLun` (the `utils` package is not
part of the sources) derives `(scsi-id, lun)` from the drive's attach index,
rejecting negative or too-large indices. -/
def GetSCSIIdLun (index : Int) : Except String (Int × Int) :=
  if index < 0 then .error "Index cannot be negative"
  else if index > 65535 then .error "Index too large"
  else .ok (index / 256, index % 256)

/-- Oracles for the block-device hotplug flow: host-side `open`/ioctl results
and the outcome of each QMP command the flow may issue. -/
structure BlockEnv where
  qmp : QmpEnv := {}
  openOk : Bool := true
  ioctlOk : Bool := true
  blocksize : Int := 0
  nvdimmAddOk : Bool := true
  blockdevAddOk : Bool := true
  deviceAddOk : Bool := true
  pciDeviceAddOk : Bool := true
  scsiDeviceAddOk : Bool := true
  deviceDelOk : Bool := true
  blockdevDelOk : Bool := true
  deriving Repr

/-- `qemu.hotplugAddBlockDevice`.  Returns the error, the post state, the
updated drive record and the issued commands.  The deferred `blockdev-del`
rollback fires on every error after `blockdev-add`; the PCI case additionally
registers a bridge-slot release, the CCW case does not. -/
def hotplugAddBlockDevice (cfg : HypervisorConfig) (env : BlockEnv) (st : QemuState)
    (drive : BlockDrive) (devID : String) :
    Option String × QemuState × BlockDrive × List Cmd :=
  if cfg.BlockDeviceDriver = .Nvdimm then
    if !env.openOk then (some "open failed", st, drive, [])
    else if !env.ioctlOk then (some "ioctl BLKGETSIZE64 failed", st, drive, [])
    else
      let c := Cmd.nvdimmDeviceAdd drive.ID drive.File env.blocksize
      if !env.nvdimmAddOk then (some "NVDIMM device add failed", st, drive, [c])
      else
        (none, { st with nvdimmCount := st.nvdimmCount + 1 },
          { drive with NvdimmID := toString st.nvdimmCount }, [c])
  else
    let blockdevCmd :=
      if cfg.BlockDeviceCacheSet then
        Cmd.blockdevAddWithCache drive.File drive.ID
          cfg.BlockDeviceCacheDirect cfg.BlockDeviceCacheNoflush
      else Cmd.blockdevAdd drive.File drive.ID
    if !env.blockdevAddOk then (some "blockdev-add failed", st, drive, [blockdevCmd])
    else
      match cfg.BlockDeviceDriver with
      | .VirtioBlockCCW =>
        match addDeviceToBridge st.bridges drive.ID .CCW with
        | .error e => (some e, st, drive, [blockdevCmd, .blockdevDel drive.ID])
        | .ok (addr, bridge, bridges') =>
          let st' := { st with bridges := bridges' }
          match bridge.AddressFormatCCW addr with
          | .error e => (some e, st', drive, [blockdevCmd, .blockdevDel drive.ID])
          | .ok devNoHotplug =>
            match bridge.AddressFormatCCWForVirtServer addr with
            | .error e =>
              (some e, st', { drive with DevNo := "" },
                [blockdevCmd, .blockdevDel drive.ID])
            | .ok devNo =>
              let drive' := { drive with DevNo := devNo }
              let c := Cmd.deviceAdd drive.ID devID "virtio-blk-ccw" devNoHotplug
              if env.deviceAddOk then (none, st', drive', [blockdevCmd, c])
              else
                (some "CCW device_add failed", st', drive',
                  [blockdevCmd, c, .blockdevDel drive.ID])
      | .VirtioBlock =>
        match addDeviceToBridge st.bridges drive.ID .PCI with
        | .error e => (some e, st, drive, [blockdevCmd, .blockdevDel drive.ID])
        | .ok (addr, bridge, bridges') =>
          let drive' := { drive with PCIAddr := fmtHexPad 2 bridge.addr ++ "/" ++ addr }
          let c := Cmd.pciDeviceAdd drive.ID devID "virtio-blk-pci" addr bridge.id
          if env.pciDeviceAddOk then
            (none, { st with bridges := bridges' }, drive', [blockdevCmd, c])
          else
            (some "PCI device_add failed",
              { st with bridges := (removeDeviceFromBridge bridges' drive.ID).2 }, drive',
              [blockdevCmd, c, .blockdevDel drive.ID])
      | .VirtioSCSI =>
        match GetSCSIIdLun drive.Index with
        | .error e => (some e, st, drive, [blockdevCmd, .blockdevDel drive.ID])
        | .ok (scsiID, lun) =>
          let c := Cmd.scsiDeviceAdd drive.ID devID "scsi-hd" "scsi0.0" scsiID lun
          if env.scsiDeviceAddOk then (none, st, drive, [blockdevCmd, c])
          else
            (some "SCSI device_add failed", st, drive,
              [blockdevCmd, c, .blockdevDel drive.ID])
      | .Nvdimm =>
        (some ("Block device " ++ cfg.BlockDeviceDriver.name ++ " not recognized"),
          st, drive, [blockdevCmd, .blockdevDel drive.ID])

/-- `qemu.hotplugBlockDevice`: session setup, then dispatch to the add flow or
run the remove sequence (bridge release for VirtioBlock, `device_del`,
`blockdev-del`). -/
def hotplugBlockDevice (cfg : HypervisorConfig) (env : BlockEnv) (st : QemuState)
    (drive : BlockDrive) (op : Operation) :
    Option String × QemuState × BlockDrive × List Cmd :=
  let (e, conn, tr) := qmpSetup env.qmp st.connected
  let st := { st with connected := conn }
  match e with
  | some err => (some err, st, drive, tr)
  | none =>
    let devID := "virtio-" ++ drive.ID
    match op with
    | .addDevice =>
      let (r, st', drive', tr') := hotplugAddBlockDevice cfg env st drive devID
      (r, st', drive', tr ++ tr')
    | .removeDevice =>
      let (rel, bridges') :=
        if cfg.BlockDeviceDriver = .VirtioBlock then removeDeviceFromBridge st.bridges drive.ID
        else (none, st.bridges)
      match rel with
      | some e => (some e, st, drive, tr)
      | none =>
        let st := { st with bridges := bridges' }
        if !env.deviceDelOk then
          (some "device_del failed", st, drive, tr ++ [Cmd.deviceDel devID])
        else if !env.blockdevDelOk then
          (some "blockdev-del failed", st, drive,
            tr ++ [Cmd.deviceDel devID, Cmd.blockdevDel drive.ID])
        else (none, st, drive, tr ++ [Cmd.deviceDel devID, Cmd.blockdevDel drive.ID])

/-! ### VFIO hotplug -/

/-- `config.VFIODeviceType`. -/
inductive VFIODeviceType where
  | VFIODeviceErrorType
  | VFIODeviceNormalType
  | VFIODeviceMediatedType
  deriving Repr, DecidableEq

/-- The fields of `config.VFIODev` the flow reads. -/
structure VFIODev where
  ID : String := ""
  typ : VFIODeviceType := .VFIODeviceNormalType
  BDF : String := ""
  SysfsDev : String := ""
  deriving Repr, DecidableEq

/-- Oracles for the VFIO hotplug flow. -/
structure VFIOEnv where
  qmp : QmpEnv := {}
  rootVfioAddOk : Bool := true
  rootMediatedAddOk : Bool := true
  pciVfioAddOk : Bool := true
  pciMediatedAddOk : Bool := true
  deviceDelOk : Bool := true
  deriving Repr

/-- `qemu.hotplugVFIODevice`.  On add, devices go to the root bus when
`HotplugVFIOOnRootBus` is set; otherwise a PCI bridge slot is allocated
first.  The source registers a slot-release defer, but it tests the `err`
declared by the `:=` of the allocation, which shadows the named return and is
never assigned afterwards (every later failure returns directly); the release
therefore never runs and the allocation is kept on every post-allocation
path. -/
def hotplugVFIODevice (env : VFIOEnv) (st : QemuState) (device : VFIODev)
    (op : Operation) : Option String × QemuState × List Cmd :=
  let (e, conn, tr) := qmpSetup env.qmp st.connected
  let st := { st with connected := conn }
  match e with
  | some err => (some err, st, tr)
  | none =>
    let devID := device.ID
    match op with
    | .addDevice =>
      if st.hotplugVFIOOnRootBus then
        match device.typ with
        | .VFIODeviceNormalType =>
          let c := Cmd.vfioDeviceAdd devID device.BDF
          if env.rootVfioAddOk then (none, st, tr ++ [c])
          else (some "VFIO device_add failed", st, tr ++ [c])
        | .VFIODeviceMediatedType =>
          let c := Cmd.pciVfioMediatedDeviceAdd devID device.SysfsDev "" ""
          if env.rootMediatedAddOk then (none, st, tr ++ [c])
          else (some "VFIO mediated device_add failed", st, tr ++ [c])
        | _ => (some "Incorrect VFIO device type found", st, tr)
      else
        match addDeviceToBridge st.bridges devID .PCI with
        | .error e => (some e, st, tr)
        | .ok (addr, bridge, bridges') =>
          let stOk := { st with bridges := bridges' }
          match device.typ with
          | .VFIODeviceNormalType =>
            let c := Cmd.pciVfioDeviceAdd devID device.BDF addr bridge.id
            if env.pciVfioAddOk then (none, stOk, tr ++ [c])
            else (some "VFIO device_add failed", stOk, tr ++ [c])
          | .VFIODeviceMediatedType =>
            let c := Cmd.pciVfioMediatedDeviceAdd devID device.SysfsDev addr bridge.id
            if env.pciMediatedAddOk then (none, stOk, tr ++ [c])
            else (some "VFIO mediated device_add failed", stOk, tr ++ [c])
          | _ => (some "Incorrect VFIO device type found", stOk, tr)
    | .removeDevice =>
      let (rel, bridges') :=
        if !st.hotplugVFIOOnRootBus then removeDeviceFromBridge st.bridges devID
        else (none, st.bridges)
      match rel with
      | some e => (some e, st, tr)
      | none =>
        let st := { st with bridges := bridges' }
        if env.deviceDelOk then (none, st, tr ++ [Cmd.deviceDel devID])
        else (some "device_del failed", st, tr ++ [Cmd.deviceDel devID])

/-! ### Network hotplug -/

/-- The endpoint variants the flow distinguishes. -/
inductive EndpointType where
  | VethEndpointType
  | TapEndpointType
  | OtherEndpointType
  deriving Repr, DecidableEq

/-- `TapInterface`. -/
structure TapInterface where
  ID : String := ""
  Name : String := ""
  VMFds : List Nat := []
  VhostFds : List Nat := []
  deriving Repr, DecidableEq

/-- An endpoint: its variant, tap interface, hardware address and the PCI
address the flow records via `SetPciAddr`. -/
structure Endpoint where
  typ : EndpointType := .VethEndpointType
  tap : TapInterface := {}
  hwAddr : String := ""
  pciAddr : String := ""
  deriving Repr, DecidableEq

/-- A QEMU machine record (`govmmQemu.Machine`). -/
structure Machine where
  typ : String := ""
  options : String := ""
  deriving Repr, DecidableEq

/-- Oracles for the network hotplug flow.  `getFD` is keyed by the alias under
which the descriptor is passed to QEMU. -/
structure NetEnv where
  qmp : QmpEnv := {}
  getFD : String → Bool := fun _ => true
  netdevAddOk : Bool := true
  archMachine : Except String Machine := .ok {}
  netCcwAddOk : Bool := true
  netPciAddOk : Bool := true
  deviceDelOk : Bool := true
  netdevDelOk : Bool := true

/-- The `getfd` loop of `hotAddNetDevice` over one descriptor list: aliases
are `<prefix><index>`; the first failure aborts. -/
def getFDLoop (env : NetEnv) (pre : String) : List Nat → Nat → Option String × List Cmd
  | [], _ => (none, [])
  | _ :: rest, i =>
    let fdName := pre ++ toString i
    if env.getFD fdName then
      let r := getFDLoop env pre rest (i + 1)
      (r.1, Cmd.getFD fdName :: r.2)
    else (some "getfd failed", [Cmd.getFD fdName])

/-- `qemu.hotAddNetDevice`: pass every VM fd and vhost fd to QEMU, then issue
`netdev_add`. -/
def hotAddNetDevice (env : NetEnv) (name : String) (vmFds vhostFds : List Nat) :
    Option String × List Cmd :=
  let (e1, tr1) := getFDLoop env "fd" vmFds 0
  match e1 with
  | some err => (some err, tr1)
  | none =>
    let (e2, tr2) := getFDLoop env "vhostfd" vhostFds 0
    match e2 with
    | some err => (some err, tr1 ++ tr2)
    | none =>
      if env.netdevAddOk then (none, tr1 ++ tr2 ++ [Cmd.netdevAdd name])
      else (some "netdev_add failed", tr1 ++ tr2 ++ [Cmd.netdevAdd name])

/-- `%x` of a Go string: the lower-case hexadecimal dump of its bytes (used by
the CCW device-number format of `hotplugNetDevice`). -/
def stringHexBytes (s : String) : String :=
  String.join (s.toList.map (fun c => fmtHexPad 2 c.toNat))

/-- `qemu.getQemuMachine`: the arch machine with the configured accelerators
appended (comma-prefixed when missing). -/
def getQemuMachine (cfg : HypervisorConfig) (archMachine : Except String Machine) :
    Except String Machine :=
  match archMachine with
  | .error e => .error e
  | .ok machine =>
    if cfg.MachineAccelerators ≠ "" then
      let accel :=
        if !cfg.MachineAccelerators.startsWith "," then "," ++ cfg.MachineAccelerators
        else cfg.MachineAccelerators
      .ok { machine with options := machine.options ++ accel }
    else .ok machine

/-- `qemu.hotplugNetDevice`.  On add: `getfd`/`netdev_add`, bridge slot
allocation, then the machine-type-specific `device_add`.  The netdev-delete
defer tests the named return `err`, so it runs on every later error.  The
slot-release defer instead tests the `err` declared by the `:=` of the
allocation, which shadows the named return; only the machine-lookup
assignment (`machine, err = q.getQemuMachine()`) writes that shadowed
variable, so the slot is released on the machine-lookup failure and kept
when the `device_add` itself fails (those paths return directly without
assigning it).  On remove: release the slot, `device_del`, `netdev_del`. -/
def hotplugNetDevice (cfg : HypervisorConfig) (env : NetEnv) (st : QemuState)
    (endpoint : Endpoint) (op : Operation) :
    Option String × QemuState × Endpoint × List Cmd :=
  let (e, conn, tr) := qmpSetup env.qmp st.connected
  let st := { st with connected := conn }
  match e with
  | some err => (some err, st, endpoint, tr)
  | none =>
    if endpoint.typ = .OtherEndpointType then
      (some "this endpoint is not supported", st, endpoint, tr)
    else
      let tap := endpoint.tap
      let devID := "virtio-" ++ tap.ID
      match op with
      | .addDevice =>
        let (e1, tr1) := hotAddNetDevice env tap.Name tap.VMFds tap.VhostFds
        match e1 with
        | some err => (some err, st, endpoint, tr ++ tr1)
        | none =>
          match addDeviceToBridge st.bridges tap.ID .PCI with
          | .error e =>
            (some e, st, endpoint, tr ++ tr1 ++ [Cmd.netdevDel tap.Name])
          | .ok (addr, bridge, bridges') =>
            let stOk := { st with bridges := bridges' }
            let stFail := { st with bridges := (removeDeviceFromBridge bridges' tap.ID).2 }
            let endpoint' := { endpoint with pciAddr := fmtHexPad 2 bridge.addr ++ "/" ++ addr }
            match getQemuMachine cfg env.archMachine with
            | .error e =>
              (some e, stFail, endpoint', tr ++ tr1 ++ [Cmd.netdevDel tap.Name])
            | .ok machine =>
              if machine.typ = "s390-ccw-virtio" then
                let devNoHotplug := "fe." ++ String.mk (hexDigits bridge.addr) ++ "."
                  ++ stringHexBytes addr
                let c := Cmd.netCCWDeviceAdd tap.Name devID devNoHotplug
                if env.netCcwAddOk then (none, stOk, endpoint', tr ++ tr1 ++ [c])
                else
                  (some "CCW netdev device_add failed", stOk, endpoint',
                    tr ++ tr1 ++ [c, Cmd.netdevDel tap.Name])
              else
                let c := Cmd.netPCIDeviceAdd tap.Name devID addr bridge.id
                if env.netPciAddOk then (none, stOk, endpoint', tr ++ tr1 ++ [c])
                else
                  (some "PCI netdev device_add failed", stOk, endpoint',
                    tr ++ tr1 ++ [c, Cmd.netdevDel tap.Name])
      | .removeDevice =>
        let (rel, bridges') := removeDeviceFromBridge st.bridges tap.ID
        match rel with
        | some e => (some e, st, endpoint, tr)
        | none =>
          let st := { st with bridges := bridges' }
          if !env.deviceDelOk then
            (some "device_del failed", st, endpoint, tr ++ [Cmd.deviceDel devID])
          else if !env.netdevDelOk then
            (some "netdev_del failed", st, endpoint,
              tr ++ [Cmd.deviceDel devID, Cmd.netdevDel tap.Name])
          else
            (none, st, endpoint, tr ++ [Cmd.deviceDel devID, Cmd.netdevDel tap.Name])

/-! ### CPU hotplug -/

/-- One entry of `query-hotpluggable-cpus`: its QOM path (non-empty means the
CPU is already in use), driver type and topology properties. -/
structure HotpluggableCPU where
  QOMPath : String := ""
  typ : String := ""
  Socket : Int := 0
  Die : Int := 0
  Core : Int := 0
  Thread : Int := 0
  deriving Repr, DecidableEq

/-- Oracles for the CPU hotplug flows.  `cpuAdd` decides the outcome of each
`device_add` from its arguments; `storeOk` is the persistence outcome. -/
structure CpuEnv where
  qmp : QmpEnv := {}
  queryHotpluggableCPUs : Except String (List HotpluggableCPU) := .ok []
  archMachine : Except String Machine := .ok {}
  cpuAdd : String → String → String → String → String → String → Bool :=
    fun _ _ _ _ _ _ => true
  deviceDel : String → Bool := fun _ => true
  storeOk : Bool := true

/-- The persistence outcome as an optional error. -/
def storeRes (ok : Bool) : Option String :=
  if ok then none else some "failed to store state"

/-- The candidate loop of `hotplugAddCPUs`: skip in-use candidates, name the
next CPU `cpu-<current list length>`, blank the socket/die/thread ids on
`pseries` and `s390-ccw-virtio`, try `device_add`, continue past per-candidate
failures, and stop once `amount` CPUs were added. -/
def addCPUsLoop (env : CpuEnv) (machineType : String) (amount : Nat) :
    List HotpluggableCPU → List String → Nat → (Nat × Option String) × List String × List Cmd
  | [], st, count =>
    ((count, some ("failed to hot add vCPUs: only " ++ toString count ++ " vCPUs of "
      ++ toString amount ++ " were added")), st, [Cmd.storeState])
  | hc :: rest, st, count =>
    if hc.QOMPath ≠ "" then addCPUsLoop env machineType amount rest st count
    else
      let driver := hc.typ
      let cpuID := "cpu-" ++ toString st.length
      let socketID := if machineType = "pseries" ∨ machineType = "s390-ccw-virtio" then ""
        else toString hc.Socket
      let dieID := if machineType = "pseries" ∨ machineType = "s390-ccw-virtio" then ""
        else toString hc.Die
      let coreID := toString hc.Core
      let threadID := if machineType = "pseries" ∨ machineType = "s390-ccw-virtio" then ""
        else toString hc.Thread
      let c := Cmd.cpuDeviceAdd driver cpuID socketID dieID coreID threadID
      if env.cpuAdd driver cpuID socketID dieID coreID threadID then
        let st' := st ++ [cpuID]
        if count + 1 = amount then
          ((amount, storeRes env.storeOk), st', [c, Cmd.storeState])
        else
          let r := addCPUsLoop env machineType amount rest st' (count + 1)
          (r.1, r.2.1, c :: r.2.2)
      else
        let r := addCPUsLoop env machineType amount rest st count
        (r.1, r.2.1, c :: r.2.2)

/-- `qemu.hotplugAddCPUs`: clamp the request to the remaining vCPU budget
(`uint32` subtraction, taken modulo `2^32`), return `(0, ok)` when clamped to
zero, query the hotpluggable CPUs and the machine type, then run the
candidate loop.  `smpCPUs` is `qemuConfig.SMP.CPUs`. -/
def hotplugAddCPUs (cfg : HypervisorConfig) (env : CpuEnv) (smpCPUs : Nat)
    (st : List String) (amount : Nat) :
    (Nat × Option String) × List String × List Cmd :=
  let currentVCPUs := smpCPUs + st.length
  let amount :=
    if currentVCPUs + amount > cfg.DefaultMaxVCPUs then
      (cfg.DefaultMaxVCPUs + 4294967296 - currentVCPUs) % 4294967296
    else amount
  if amount = 0 then ((0, none), st, [])
  else
    match env.queryHotpluggableCPUs with
    | .error e =>
      ((0, some ("failed to query hotpluggable CPUs: " ++ e)), st,
        [Cmd.queryHotpluggableCPUs])
    | .ok hotpluggableVCPUs =>
      match env.archMachine with
      | .error e =>
        ((0, some ("failed to query machine type: " ++ e)), st,
          [Cmd.queryHotpluggableCPUs])
      | .ok machine =>
        let r := addCPUsLoop env machine.typ amount hotpluggableVCPUs st 0
        (r.1, r.2.1, Cmd.queryHotpluggableCPUs :: r.2.2)

/-- The removal loop of `hotplugRemoveCPUs`: pop the last hotplugged CPU,
issue `device_del`, and on failure persist and return the count so far. -/
def removeCPUsLoop (env : CpuEnv) : List String → Nat → Nat →
    (Nat × Option String) × List String × List Cmd
  | st, i, 0 => ((i, storeRes env.storeOk), st, [Cmd.storeState])
  | st, i, r + 1 =>
    let cpu := st.getLast?.getD ""
    if env.deviceDel cpu then
      let res := removeCPUsLoop env st.dropLast (i + 1) r
      (res.1, res.2.1, Cmd.deviceDel cpu :: res.2.2)
    else
      ((i, some ("failed to hotunplug CPUs, only " ++ toString i
        ++ " CPUs were hotunplugged")), st, [Cmd.deviceDel cpu, Cmd.storeState])

/-- `qemu.hotplugRemoveCPUs`: reject requests beyond the hotplugged count,
otherwise pop LIFO. -/
def hotplugRemoveCPUs (env : CpuEnv) (st : List String) (amount : Nat) :
    (Nat × Option String) × List String × List Cmd :=
  if amount > st.length then
    ((0, some ("Unable to remove " ++ toString amount ++ " CPUs, currently there are only "
      ++ toString st.length ++ " hotplugged CPUs")), st, [])
  else removeCPUsLoop env st 0 amount

/-- `qemu.hotplugCPUs`: warn-and-return on a zero request, set the session up,
then dispatch on the operation. -/
def hotplugCPUs (cfg : HypervisorConfig) (env : CpuEnv) (smpCPUs : Nat)
    (st : QemuState) (vcpus : Nat) (op : Operation) :
    (Nat × Option String) × QemuState × List Cmd :=
  if vcpus = 0 then ((0, none), st, [])
  else
    let (e, conn, tr) := qmpSetup env.qmp st.connected
    let st := { st with connected := conn }
    match e with
    | some err => ((0, some err), st, tr)
    | none =>
      match op with
      | .addDevice =>
        let (r, vcpuList, tr') := hotplugAddCPUs cfg env smpCPUs st.hotpluggedVCPUs vcpus
        (r, { st with hotpluggedVCPUs := vcpuList }, tr ++ tr')
      | .removeDevice =>
        let (r, vcpuList, tr') := hotplugRemoveCPUs env st.hotpluggedVCPUs vcpus
        (r, { st with hotpluggedVCPUs := vcpuList }, tr ++ tr')

/-! ### Memory hotplug -/

/-- `memoryDevice` of qemu.go. -/
structure MemoryDevice where
  slot : Int := 0
  sizeMB : Int := 0
  addr : Nat := 0
  probe : Bool := false
  deriving Repr, DecidableEq

/-- One entry of `query-memory-devices`. -/
structure MemoryDeviceInfo where
  slot : Int := 0
  addr : Nat := 0
  deriving Repr, DecidableEq

/-- The launch-configuration knobs (`govmmQemu.Knobs`). -/
structure Knobs where
  NoUserConfig : Bool := false
  NoDefaults : Bool := false
  NoGraphic : Bool := false
  Daemonize : Bool := false
  MemPrealloc : Bool := false
  HugePages : Bool := false
  Realtime : Bool := false
  Mlock : Bool := false
  FileBackedMem : Bool := false
  MemShared : Bool := false
  deriving Repr, DecidableEq

/-- The launch-configuration memory record (`govmmQemu.Memory`). -/
structure Memory where
  size : String := ""
  slots : Nat := 0
  maxMem : String := ""
  path : String := ""
  deriving Repr, DecidableEq

/-- Oracles for the memory hotplug flow. -/
structure MemEnv where
  qmp : QmpEnv := {}
  hostMemKb : Except String Nat := .ok 0
  queryMemoryDevices1 : Except String (List MemoryDeviceInfo) := .ok []
  hotplugMemOk : Bool := true
  queryMemoryDevices2 : Except String (List MemoryDeviceInfo) := .ok []
  storeOk : Bool := true

/-- `qemu.hostMemMB`: host memory in MiB from the KiB figure of
`/proc/meminfo`, rejecting a zero reading. -/
def hostMemMB (hostMemKb : Except String Nat) : Except String Nat :=
  match hostMemKb with
  | .error e => .error ("Unable to read memory info: " ++ e)
  | .ok kb => if kb = 0 then .error "Error host memory size 0" else .ok (kb / 1024)

/-- The maximum slot of the reported memory devices, starting from `-1`. -/
def maxMemorySlot (devices : List MemoryDeviceInfo) : Int :=
  devices.foldl (fun acc d => if acc < d.slot then d.slot else acc) (-1)

/-- `qemu.hotplugAddMemory`: query the next free slot, choose the backend from
the hugepage/virtio-fs/file-backed knobs, issue `hotplug-memory`, optionally
probe the new device's address, then record and persist the added size. -/
def hotplugAddMemory (cfg : HypervisorConfig) (env : MemEnv) (knobs : Knobs)
    (memoryPath : String) (st : QemuState) (memDev : MemoryDevice) :
    (Int × Option String) × QemuState × MemoryDevice × List Cmd :=
  match env.queryMemoryDevices1 with
  | .error e =>
    ((0, some ("failed to query memory devices: " ++ e)), st, memDev,
      [Cmd.queryMemoryDevices])
  | .ok memoryDevices =>
    let memDev :=
      if memoryDevices.length ≠ 0 then { memDev with slot := maxMemorySlot memoryDevices + 1 }
      else memDev
    let (share, target, memoryBack) :=
      if knobs.HugePages then (true, "/dev/hugepages", "memory-backend-file")
      else if cfg.SharedFS = .VirtioFS ∨ cfg.FileBackedMemRootDir ≠ "" then
        (false, memoryPath, "memory-backend-file")
      else (false, "", "memory-backend-ram")
    let share := if knobs.MemShared then true else share
    let c := Cmd.hotplugMemoryCmd memoryBack ("mem" ++ toString memDev.slot) target
      memDev.sizeMB share
    if !env.hotplugMemOk then
      ((0, some "hotplug memory failed"), st, memDev, [Cmd.queryMemoryDevices, c])
    else
      let probeStep : Option String × MemoryDevice × List Cmd :=
        if memDev.probe then
          match env.queryMemoryDevices2 with
          | .error e =>
            (some ("failed to query memory devices: " ++ e), memDev, [Cmd.queryMemoryDevices])
          | .ok devs =>
            if devs.length ≠ 0 then
              (none, { memDev with addr := (devs.getLast?.getD {}).addr }, [Cmd.queryMemoryDevices])
            else
              (some "failed to probe address of recently hot-add memory device, no device exists",
                memDev, [Cmd.queryMemoryDevices])
        else (none, memDev, [])
      match probeStep with
      | (some e, memDev', tr) =>
        ((0, some e), st, memDev', [Cmd.queryMemoryDevices, c] ++ tr)
      | (none, memDev', tr) =>
        ((memDev'.sizeMB, storeRes env.storeOk),
          { st with hotpluggedMemory := st.hotpluggedMemory + memDev'.sizeMB }, memDev',
          [Cmd.queryMemoryDevices, c] ++ tr ++ [Cmd.storeState])

/-- `qemu.hotplugMemory`: reject when the guest does not support memory
hotplug or the size is negative; connect; return `(0, ok)` for a zero size;
dispatch on the operation, where remove only warns and add enforces the host
memory budget before delegating to `hotplugAddMemory`. -/
def hotplugMemory (cfg : HypervisorConfig) (supportGuestMemoryHotplug : Bool)
    (env : MemEnv) (knobs : Knobs) (memoryPath : String) (st : QemuState)
    (memDev : MemoryDevice) (op : Operation) :
    (Int × Option String) × QemuState × MemoryDevice × List Cmd :=
  if !supportGuestMemoryHotplug then
    ((0, some "guest memory hotplug not supported"), st, memDev, [])
  else if memDev.sizeMB < 0 then
    ((0, some ("cannot hotplug negative size (" ++ toString memDev.sizeMB ++ ") memory")),
      st, memDev, [])
  else
    let (e, conn, tr) := qmpSetup env.qmp st.connected
    let st := { st with connected := conn }
    match e with
    | some err => ((0, some err), st, memDev, tr)
    | none =>
      let currentMemory := (cfg.MemorySize : Int) + st.hotpluggedMemory
      if memDev.sizeMB = 0 then ((0, none), st, memDev, tr)
      else
        match op with
        | .removeDevice => ((0, none), st, memDev, tr)
        | .addDevice =>
          match hostMemMB env.hostMemKb with
          | .error e => ((0, some e), st, memDev, tr)
          | .ok maxMem =>
            if currentMemory + memDev.sizeMB > (maxMem : Int) then
              ((0, some ("Unable to hotplug " ++ toString memDev.sizeMB
                ++ " MiB memory, the SB has " ++ toString currentMemory
                ++ " MiB and the maximum amount is " ++ toString maxMem ++ " MiB")),
                st, memDev, tr)
            else
              let (r, st', memDev', tr') := hotplugAddMemory cfg env knobs memoryPath st memDev
              (r, st', memDev', tr ++ tr')

/-! ### `getPids` -/

/-- `strings.Trim(s, "\n\t ")`: strip the cutset characters from both ends. -/
def goTrim (s : String) : String :=
  let cutset : List Char := ['\n', '\t', ' ']
  String.mk (((s.toList.dropWhile (cutset.contains ·)).reverse.dropWhile
    (cutset.contains ·)).reverse)

/-- `strconv.Atoi`: an optional sign followed by at least one decimal digit,
rejecting anything else and 64-bit overflow. -/
def goAtoi (s : String) : Option Int :=
  let (sign, digits) :=
    match s.toList with
    | '-' :: rest => ((-1 : Int), rest)
    | '+' :: rest => ((1 : Int), rest)
    | chars => ((1 : Int), chars)
  if digits.length = 0 ∨ ¬ digits.all Char.isDigit then none
  else
    let v : Int := sign * (Nat.ofDigits 10 ((digits.map
      (fun c => c.toNat - 48)).reverse) : Nat)
    if v > 9223372036854775807 ∨ v < -9223372036854775808 then none else some v

/-- `qemu.getPids`: `[0]` when the PID file cannot be read or parsed;
otherwise the QEMU PID, followed by the virtiofsd PID when nonzero. -/
def getPids (pidFileContents : Except String String) (virtiofsdPid : Int) : List Int :=
  match pidFileContents with
  | .error _ => [0]
  | .ok data =>
    match goAtoi (goTrim data) with
    | none => [0]
    | some pid =>
      let pids := [pid]
      if virtiofsdPid ≠ 0 then pids ++ [virtiofsdPid] else pids

/-! ### `createSandbox` -/

/-- `govmmQemu.Incoming.MigrationType`. -/
inductive MigrationType where
  | noIncoming
  | migrationDefer
  deriving Repr, DecidableEq

/-- `govmmQemu.SMP`. -/
structure SMP where
  CPUs : Nat := 0
  Sockets : Nat := 0
  Cores : Nat := 0
  Threads : Nat := 0
  MaxCPUs : Nat := 0
  deriving Repr, DecidableEq

/-- The part of the assembled `govmmQemu.Config` the claims inspect. -/
structure GovmmConfig where
  name : String := ""
  uuid : String := ""
  machine : Machine := {}
  smp : SMP := {}
  memory : Memory := {}
  knobs : Knobs := {}
  incoming : MigrationType := .noIncoming
  kernelParams : String := ""
  pidFile : String := ""
  deriving Repr, DecidableEq

/-- The arch capability consumed by `createSandbox`: kernel-parameter lists
and the topology formulas. -/
structure Arch where
  kp : ArchKernelParams := {}
  cpuTopology : Nat → Nat → SMP := fun vcpus maxvcpus =>
    { CPUs := vcpus, Sockets := maxvcpus, Cores := 1, Threads := 1, MaxCPUs := maxvcpus }
  memoryTopology : Nat → Nat → Nat → Memory := fun memoryMb hostMemoryMb slots =>
    { size := toString memoryMb ++ "M", slots := slots, maxMem := toString hostMemoryMb ++ "M" }

/-- Environment oracles for `createSandbox`: results of the host-dependent
steps, in the order the source consults them. -/
structure CreateEnv where
  setupErr : Option String := none
  archMachine : Except String Machine := .ok {}
  hostMemKb : Except String Nat := .ok 1
  kernelPath : Except String String := .ok ""
  initrdPath : Except String String := .ok ""
  statExists : String → Bool := fun _ => true
  uuid : String := "uuid"
  qmpSocketPath : Except String String := .ok ""
  buildDevicesErr : Option String := none
  firmwarePath : Except String String := .ok ""
  qemuPath : Except String String := .ok ""
  rngErr : Option String := none

/-- `fallbackFileBackedMemDir` of qemu.go. -/
def fallbackFileBackedMemDir : String := "/dev/shm"

/-- `qemu.setupTemplate`: when booting to or from a template, turn on
file-backed memory at `config.MemoryPath`; boot-to-be-template additionally
shares the memory, boot-from-template defers incoming migration. -/
def setupTemplate (cfg : HypervisorConfig) (knobs : Knobs) (memory : Memory) :
    Knobs × Memory × MigrationType :=
  if cfg.BootToBeTemplate || cfg.BootFromTemplate then
    let knobs := { knobs with FileBackedMem := true }
    let memory := { memory with path := cfg.MemoryPath }
    let knobs := if cfg.BootToBeTemplate then { knobs with MemShared := true } else knobs
    let incoming := if cfg.BootFromTemplate then MigrationType.migrationDefer
      else MigrationType.noIncoming
    (knobs, memory, incoming)
  else (knobs, memory, .noIncoming)

/-- `qemu.setupFileBackedMem`: target the configured root dir (or `/dev/shm`);
when the target does not exist on disk, log and change nothing; otherwise set
the file-backed and shared knobs and the memory path. -/
def setupFileBackedMem (cfg : HypervisorConfig) (statExists : String → Bool)
    (knobs : Knobs) (memory : Memory) : Knobs × Memory :=
  let target := if cfg.FileBackedMemRootDir ≠ "" then cfg.FileBackedMemRootDir
    else fallbackFileBackedMemDir
  if !statExists target then (knobs, memory)
  else
    ({ knobs with FileBackedMem := true, MemShared := true },
      { memory with path := target })

/-- The error `createSandbox` raises when templating is combined with
virtio-fs or stand-alone file-backed memory. -/
def templatingConflictMsg : String :=
  "VM templating has been enabled with either virtio-fs or file backed memory and this configuration will not work"

/-- `qemu.createSandbox`: assemble the launch configuration, or fail.  The
stored configuration (`q.qemuConfig`) is only produced on the `ok` path,
matching the source, where the assignment is the function's last step. -/
def createSandbox (arch : Arch) (cfg : HypervisorConfig) (env : CreateEnv)
    (id : String) : Except String GovmmConfig := do
  match env.setupErr with
  | some e => throw e
  | none =>
  let machine ← getQemuMachine cfg env.archMachine
  let smp := arch.cpuTopology cfg.NumVCPUs cfg.DefaultMaxVCPUs
  let hostMemMb ← hostMemMB env.hostMemKb
  let memory := arch.memoryTopology cfg.MemorySize hostMemMb cfg.MemSlots
  let knobs : Knobs :=
    { NoUserConfig := true, NoDefaults := true, NoGraphic := true, Daemonize := true,
      MemPrealloc := cfg.MemPrealloc, HugePages := cfg.HugePages,
      Realtime := cfg.Realtime, Mlock := cfg.Mlock }
  let _ ← env.kernelPath
  let _ ← env.initrdPath
  let kernelParams := kernelParameters arch.kp cfg
  let (knobs, memory, incoming) := setupTemplate cfg knobs memory
  let (knobs, memory) ←
    if cfg.SharedFS = .VirtioFS ∨ cfg.FileBackedMemRootDir ≠ "" then
      if !(cfg.BootToBeTemplate || cfg.BootFromTemplate) then
        let (knobs, memory) := setupFileBackedMem cfg env.statExists knobs memory
        let knobs := if cfg.HugePages then { knobs with MemPrealloc := true } else knobs
        pure (knobs, memory)
      else throw templatingConflictMsg
    else pure (knobs, memory)
  if env.uuid = "" then throw "UUID should not be empty"
  let _ ← env.qmpSocketPath
  match env.buildDevicesErr with
  | some e => throw e
  | none =>
  let _ ← env.firmwarePath
  let _ ← env.qemuPath
  match env.rngErr with
  | some e => throw e
  | none =>
  pure {
    name := "sandbox-" ++ id
    uuid := env.uuid
    machine := machine
    smp := smp
    memory := memory
    knobs := knobs
    incoming := incoming
    kernelParams := kernelParams
    pidFile := "pid" }

/-! ## Theorems -/

/-- C6: `kernelParameters()` is the space-joined `key=value` serialization of
the arch base parameters for the Debug flag, then `panic=1`, then
`nr_cpus=<DefaultMaxVCPUs>`, then `agent.use_vsock=<UseVSock>`, then the
user-supplied parameters; with an empty arch base, `DefaultMaxVCPUs = 8`,
`UseVSock = false` and user parameters `foo=foo bar=bar`, the result is
`"panic=1 nr_cpus=8 agent.use_vsock=false foo=foo bar=bar"` for both values
of Debug. -/
theorem c6_kernel_parameter_serialization :
    (∀ (maxVCPUs : Nat) (useVSock debug : Bool) (user : List Param),
      kernelParameters {}
          { DefaultMaxVCPUs := maxVCPUs, UseVSock := useVSock,
            KernelParams := user, Debug := debug } =
        String.intercalate " " (SerializeParams
          ([⟨"panic", "1"⟩, ⟨"nr_cpus", toString maxVCPUs⟩,
            ⟨vsockKernelOption, formatBool useVSock⟩] ++ user) "=")) ∧
    (∀ debug : Bool,
      kernelParameters {}
          { DefaultMaxVCPUs := 8, UseVSock := false,
            KernelParams := [⟨"foo", "foo"⟩, ⟨"bar", "bar"⟩], Debug := debug } =
        "panic=1 nr_cpus=8 agent.use_vsock=false foo=foo bar=bar") := by
  constructor
  · intro maxVCPUs useVSock debug user
    cases debug <;> rfl
  · intro debug
    cases debug <;> rfl

/-- C10: `getPids` returns exactly `[0]` when the PID file cannot be read or
its trimmed contents cannot be parsed as an integer (even when the virtiofsd
PID is nonzero); when the file parses as `p` it returns `[p]` for a zero
virtiofsd PID and `[p, VirtiofsdPid]` otherwise; in particular contents
`"100"` with `VirtiofsdPid = 200` give `[100, 200]`. -/
theorem c10_getPids_spec :
    (∀ (e : String) (vpid : Int), getPids (.error e) vpid = [0]) ∧
    (∀ (data : String) (vpid : Int), goAtoi (goTrim data) = none →
      getPids (.ok data) vpid = [0]) ∧
    (∀ (data : String) (vpid p : Int), goAtoi (goTrim data) = some p →
      getPids (.ok data) vpid = if vpid = 0 then [p] else [p, vpid]) ∧
    getPids (.ok "100") 200 = [100, 200] := by
  refine ⟨fun e vpid => rfl, fun data vpid h => by simp [getPids, h], ?_, by rfl⟩
  intro data vpid p h
  simp only [getPids, h]
  by_cases hv : vpid = 0 <;> simp [hv]

/-- Witness for C10 at concrete inputs: unreadable and unparsable files give
`[0]`, and a parsed PID is followed by the nonzero virtiofsd PID. -/
theorem c10_getPids_spec_witness :
    goAtoi (goTrim "not-a-pid") = none ∧ getPids (.ok "not-a-pid") 7 = [0] ∧
      goAtoi (goTrim " 100\n") = some 100 ∧
      getPids (.ok " 100\n") 200 = if (200 : Int) = 0 then [100] else [100, 200] :=
  ⟨rfl, c10_getPids_spec.2.1 "not-a-pid" 7 rfl, rfl,
    c10_getPids_spec.2.2.1 " 100\n" 200 100 rfl⟩

/-- A successfully allocated slot lies in `1 .. maxCapacity`. -/
theorem Bridge.AddDevice_slot_bounds {b : Bridge} {ID : String} {slot : Nat} {b' : Bridge}
    (h : b.AddDevice ID = some (slot, b')) : 1 ≤ slot ∧ slot ≤ b.maxCapacity := by
  unfold Bridge.AddDevice at h
  cases hf : (List.range' 1 b.maxCapacity).find? (fun i => ! b.devices.any (·.1 == i)) with
  | none => rw [hf] at h; simp at h
  | some s =>
    rw [hf] at h
    simp only [Option.some.injEq, Prod.mk.injEq] at h
    have hmem := List.mem_of_find?_eq_some hf
    rw [List.mem_range'_1] at hmem
    omega

/-- The shape of a successful `addDeviceToBridgeLoop` result: some bridge of
the requested type allocated a slot, and the returned string is that slot in
the bus type's format. -/
theorem addDeviceToBridgeLoop_format {ID : String} {t : BusType} :
    ∀ {bridges : List Bridge} {s : String} {b : Bridge} {rest : List Bridge},
      addDeviceToBridgeLoop ID t bridges = some (s, b, rest) →
      ∃ br ∈ bridges, br.typ = t ∧ ∃ slot b', br.AddDevice ID = some (slot, b') ∧
        ((t = .CCW ∧ s = fmtHexPad 4 slot) ∨ (t ≠ .CCW ∧ s = fmtHexPad 2 slot)) := by
  intro bridges
  induction bridges with
  | nil => intro s b rest h; simp [addDeviceToBridgeLoop] at h
  | cons hd tl ih =>
    intro s b rest h
    rw [addDeviceToBridgeLoop] at h
    by_cases hty : t ≠ hd.typ
    · rw [if_pos hty] at h
      cases hrec : addDeviceToBridgeLoop ID t tl with
      | none => rw [hrec] at h; exact absurd h (by simp)
      | some r =>
        obtain ⟨s', br', rest'⟩ := r
        rw [hrec] at h
        simp only [Option.some.injEq, Prod.mk.injEq] at h
        obtain ⟨hbr, hrest⟩ := ih hrec
        obtain ⟨hs, hb, hr⟩ := h
        subst hs
        exact ⟨hbr, List.mem_cons_of_mem _ hrest.1, hrest.2⟩
    · rw [if_neg hty] at h
      push_neg at hty
      cases hadd : hd.AddDevice ID with
      | some p =>
        obtain ⟨addr, b'⟩ := p
        rw [hadd] at h
        cases t with
        | CCW =>
          simp only [Option.some.injEq, Prod.mk.injEq] at h
          exact ⟨hd, List.mem_cons_self _ _, hty.symm, addr, b', hadd,
            Or.inl ⟨rfl, h.1.symm⟩⟩
        | PCI =>
          simp only [Option.some.injEq, Prod.mk.injEq] at h
          exact ⟨hd, List.mem_cons_self _ _, hty.symm, addr, b', hadd,
            Or.inr ⟨by simp, h.1.symm⟩⟩
        | PCIE =>
          simp only [Option.some.injEq, Prod.mk.injEq] at h
          exact ⟨hd, List.mem_cons_self _ _, hty.symm, addr, b', hadd,
            Or.inr ⟨by simp, h.1.symm⟩⟩
      | none =>
        rw [hadd] at h
        cases hrec : addDeviceToBridgeLoop ID t tl with
        | none => rw [hrec] at h; exact absurd h (by simp)
        | some r =>
          obtain ⟨s', br', rest'⟩ := r
          rw [hrec] at h
          simp only [Option.some.injEq, Prod.mk.injEq] at h
          obtain ⟨hbr, hrest⟩ := ih hrec
          obtain ⟨hs, hb, hr⟩ := h
          subst hs
          exact ⟨hbr, List.mem_cons_of_mem _ hrest.1, hrest.2⟩

/-- C9: whenever `addDeviceToBridge` succeeds, the returned slot string's
format depends only on the bus type — exactly four hexadecimal digits for
CCW and exactly two for PCI and PCIe — for bridges within the CCW and PCI
capacity bounds. -/
theorem c9_slot_string_format (bridges : List Bridge) (ID : String) (t : BusType)
    (s : String) (b : Bridge) (bridges' : List Bridge)
    (hcap : ∀ br ∈ bridges, (br.typ = .CCW → br.maxCapacity ≤ 65535) ∧
      (br.typ ≠ .CCW → br.maxCapacity ≤ 255))
    (h : addDeviceToBridge bridges ID t = .ok (s, b, bridges')) :
    (t = .CCW → s.length = 4 ∧ ∀ c ∈ s.toList, isHexDigitChar c = true) ∧
      ((t = .PCI ∨ t = .PCIE) → s.length = 2 ∧ ∀ c ∈ s.toList, isHexDigitChar c = true) := by
  unfold addDeviceToBridge at h
  split at h
  · exact absurd h (by simp)
  · cases hloop : addDeviceToBridgeLoop ID t bridges with
    | none => rw [hloop] at h; exact absurd h (by simp)
    | some r =>
      rw [hloop] at h
      simp only [Except.ok.injEq] at h
      subst h
      obtain ⟨br, hmem, hty, slot, b', hadd, hfmt⟩ := addDeviceToBridgeLoop_format hloop
      have hslot := Bridge.AddDevice_slot_bounds hadd
      rcases hfmt with ⟨htc, hs⟩ | ⟨htc, hs⟩
      · subst htc
        have hb := (hcap br hmem).1 hty
        have hspec := fmtHexPad_spec 4 slot (by norm_num) (by norm_num; omega)
        rw [hs]
        exact ⟨fun _ => hspec, fun hpc => by cases hpc <;> simp_all⟩
      · have hb := (hcap br hmem).2 (hty ▸ htc)
        have hspec := fmtHexPad_spec 2 slot (by norm_num) (by norm_num; omega)
        rw [hs]
        exact ⟨fun hc => absurd hc htc, fun _ => hspec⟩

/-- Witness for C9: a concrete CCW allocation yields a four-digit slot string
and a concrete PCI allocation a two-digit one. -/
theorem c9_slot_string_format_witness :
    addDeviceToBridge [⟨.CCW, "ccw0", 3, 16, []⟩] "d1" .CCW =
        .ok ("0001", ⟨.CCW, "ccw0", 3, 16, [(1, "d1")]⟩,
          [⟨.CCW, "ccw0", 3, 16, [(1, "d1")]⟩]) ∧
      ("0001".length = 4 ∧ ∀ c ∈ "0001".toList, isHexDigitChar c = true) ∧
      addDeviceToBridge [⟨.PCI, "pci0", 2, 30, []⟩] "d2" .PCI =
        .ok ("01", ⟨.PCI, "pci0", 2, 30, [(1, "d2")]⟩,
          [⟨.PCI, "pci0", 2, 30, [(1, "d2")]⟩]) ∧
      ("01".length = 2 ∧ ∀ c ∈ "01".toList, isHexDigitChar c = true) := by
  refine ⟨by rfl, ?_, by rfl, ?_⟩
  · exact (c9_slot_string_format [⟨.CCW, "ccw0", 3, 16, []⟩] "d1" .CCW "0001"
      ⟨.CCW, "ccw0", 3, 16, [(1, "d1")]⟩ [⟨.CCW, "ccw0", 3, 16, [(1, "d1")]⟩]
      (by decide) (by rfl)).1 rfl
  · exact (c9_slot_string_format [⟨.PCI, "pci0", 2, 30, []⟩] "d2" .PCI "01"
      ⟨.PCI, "pci0", 2, 30, [(1, "d2")]⟩ [⟨.PCI, "pci0", 2, 30, [(1, "d2")]⟩]
      (by decide) (by rfl)).2 (Or.inl rfl)

/-- After any `stopSandbox` call the instance is marked stopped. -/
theorem stopSandbox_sets_stopped (env : StopEnv) (st : QemuState) :
    ((stopSandbox env st).2.1).stopped = true := by
  unfold stopSandbox
  by_cases hs : st.stopped
  · simp [hs]
  · simp only [hs, Bool.false_eq_true, if_false]
    rcases hq : qmpSetup env.qmp st.connected with ⟨e, conn, tr⟩
    cases e <;> simp <;> split <;> simp

/-- A `stopSandbox` call on a stopped instance is a success and a no-op. -/
theorem stopSandbox_noop_when_stopped (env : StopEnv) (st : QemuState)
    (h : st.stopped = true) : stopSandbox env st = (none, st, [], false) := by
  unfold stopSandbox
  simp [h]

/-- C8: when the first `stopSandbox` returns success, invoking it again also
returns success, and the second call is a no-op — it issues no QMP command,
performs no cleanup, and leaves the state unchanged — because the first call
marked the instance stopped. -/
theorem c8_stopSandbox_idempotent (env : StopEnv) (st : QemuState)
    (h : (stopSandbox env st).1 = none) :
    stopSandbox env (stopSandbox env st).2.1 =
      (none, (stopSandbox env st).2.1, [], false) :=
  stopSandbox_noop_when_stopped env _ (stopSandbox_sets_stopped env st)

/-- Witness for C8: with a healthy QMP session both calls succeed and the
second is a no-op. -/
theorem c8_stopSandbox_idempotent_witness :
    (stopSandbox {} ({} : QemuState)).1 = none ∧
      stopSandbox {} (stopSandbox {} ({} : QemuState)).2.1 =
        (none, (stopSandbox {} ({} : QemuState)).2.1, [], false) :=
  ⟨rfl, c8_stopSandbox_idempotent {} {} rfl⟩

/-- `qmpSetup` issues at most the capability negotiation. -/
theorem qmpSetup_trace (env : QmpEnv) (conn : Bool) :
    ∀ c ∈ (qmpSetup env conn).2.2, c = Cmd.qmpCapabilities := by
  unfold qmpSetup
  split
  · simp
  · split
    · simp
    · split <;> simp

/-- C2 counterexample: a memory-remove request with negative size returns an
error, not `(0, ok)`, so the remove contract does not hold for every
`memoryDevice` argument. -/
theorem c2_memory_remove_counterexample :
    ((hotplugMemory {} true {} {} "" {} { sizeMB := -1 } .removeDevice).1.2).isSome = true ∧
      (hotplugMemory {} true {} {} "" {} { sizeMB := -1 } .removeDevice).1.1 = 0 ∧
      (hotplugMemory {} true {} {} "" {} { sizeMB := -1 } .removeDevice).2.2.2 = [] := by
  refine ⟨rfl, rfl, rfl⟩

/-- C2 (amended): for a `memoryDevice` of nonnegative size, when the guest
supports memory hotplug and the QMP session comes up, a remove-operation
hotplug performs no QMP hotplug command (at most the capability negotiation),
leaves the controller state — in particular `HotpluggedMemory` — unchanged,
and returns `(0, ok)`. -/
theorem c2_memory_remove_noop (cfg : HypervisorConfig) (env : MemEnv) (knobs : Knobs)
    (memPath : String) (st : QemuState) (memDev : MemoryDevice)
    (hsize : 0 ≤ memDev.sizeMB)
    (hqmp : (qmpSetup env.qmp st.connected).1 = none) :
    (hotplugMemory cfg true env knobs memPath st memDev .removeDevice).1 = (0, none) ∧
      (hotplugMemory cfg true env knobs memPath st memDev .removeDevice).2.1 =
        { st with connected := (qmpSetup env.qmp st.connected).2.1 } ∧
      (hotplugMemory cfg true env knobs memPath st memDev .removeDevice).2.2.1 = memDev ∧
      ∀ c ∈ (hotplugMemory cfg true env knobs memPath st memDev .removeDevice).2.2.2,
        c = Cmd.qmpCapabilities := by
  have htr := qmpSetup_trace env.qmp st.connected
  have hneg : ¬ memDev.sizeMB < 0 := by omega
  rcases hq : qmpSetup env.qmp st.connected with ⟨e, conn, tr⟩
  rw [hq] at hqmp htr
  simp only [Prod.fst] at hqmp
  subst hqmp
  simp only [Prod.snd, Prod.fst] at htr
  by_cases h0 : memDev.sizeMB = 0
  · simp_all [hotplugMemory, hq]
    exact fun c hc => htr c hc
  · simp_all [hotplugMemory, hq, hneg]
    rw [if_neg (show ¬ memDev.sizeMB < 0 by omega)]
    exact ⟨rfl, rfl, rfl, fun c hc => htr c hc⟩

/-- Witness for C2's amended theorem at a concrete nonnegative request. -/
theorem c2_memory_remove_noop_witness :
    (0 : Int) ≤ (5 : Int) ∧
      (qmpSetup ({} : MemEnv).qmp ({} : QemuState).connected).1 = none ∧
      (hotplugMemory {} true {} {} "" {} { sizeMB := 5 } .removeDevice).1 = (0, none) := by
  refine ⟨by norm_num, rfl, ?_⟩
  exact (c2_memory_remove_noop {} {} {} "" {} { sizeMB := 5 } (by norm_num) rfl).1

/-- The ids `hotplugRemoveCPUs` pops, in pop order: the length-`amount` tail
of the list, reversed. -/
def popIds (st : List String) (amount : Nat) : List String :=
  (st.drop (st.length - amount)).reverse

/-- How many of the given ids `device_del` accepts before the first
failure. -/
def delPrefixLen (env : CpuEnv) (ids : List String) : Nat :=
  (ids.takeWhile env.deviceDel).length

/-- Characterization of the CPU-removal loop: pops proceed through `popIds`
until the first `device_del` failure; the state drops exactly the removed
tail and a persistence write ends the trace in every case. -/
theorem removeCPUsLoop_spec (env : CpuEnv) :
    ∀ (amount : Nat) (st : List String) (i : Nat), amount ≤ st.length →
      removeCPUsLoop env st i amount =
        if delPrefixLen env (popIds st amount) = amount then
          ((i + amount, storeRes env.storeOk), st.take (st.length - amount),
            (popIds st amount).map Cmd.deviceDel ++ [Cmd.storeState])
        else
          ((i + delPrefixLen env (popIds st amount),
            some ("failed to hotunplug CPUs, only "
              ++ toString (i + delPrefixLen env (popIds st amount))
              ++ " CPUs were hotunplugged")),
            st.take (st.length - delPrefixLen env (popIds st amount)),
            ((popIds st amount).take (delPrefixLen env (popIds st amount) + 1)).map
              Cmd.deviceDel ++ [Cmd.storeState]) := by
  intro amount
  induction amount with
  | zero =>
    intro st i h
    simp [removeCPUsLoop, popIds, delPrefixLen, List.drop_length, List.take_length]
  | succ r ih =>
    intro st i h
    rcases List.eq_nil_or_concat st with rfl | ⟨dl, x, rfl⟩
    · simp at h
    · simp only [List.concat_eq_append] at h ⊢
      have hlen : (dl ++ [x]).length = dl.length + 1 := by simp
      have hr : r ≤ dl.length := by
        rw [hlen] at h
        omega
      have hids : popIds (dl ++ [x]) (r + 1) = x :: popIds dl r := by
        unfold popIds
        have hm : (dl ++ [x]).length - (r + 1) = dl.length - r := by
          rw [hlen]
          omega
        rw [hm, List.drop_append_eq_append_drop,
          Nat.sub_eq_zero_of_le (show dl.length - r ≤ dl.length by omega)]
        simp
      have htake : ∀ m, m ≤ dl.length → (dl ++ [x]).take m = dl.take m := by
        intro m hm
        rw [List.take_append_eq_append_take, Nat.sub_eq_zero_of_le hm]
        simp
      rw [removeCPUsLoop]
      simp only [List.getLast?_concat, Option.getD_some, List.dropLast_concat]
      by_cases hdel : env.deviceDel x
      · rw [if_pos hdel, ih dl (i + 1) hr]
        have hk2 : delPrefixLen env (popIds (dl ++ [x]) (r + 1)) =
            delPrefixLen env (popIds dl r) + 1 := by
          rw [hids]
          unfold delPrefixLen
          simp [List.takeWhile_cons, hdel]
        by_cases hk : delPrefixLen env (popIds dl r) = r
        · rw [if_pos hk, if_pos (by rw [hk2, hk])]
          have h1 : i + 1 + r = i + (r + 1) := by omega
          have h2 : (dl ++ [x]).length - (r + 1) = dl.length - r := by
            rw [hlen]
            omega
          rw [h1, h2, htake (dl.length - r) (by omega), hids]
          simp
        · rw [if_neg hk, if_neg (by rw [hk2]; omega)]
          have hk3 : delPrefixLen env (x :: popIds dl r) =
              delPrefixLen env (popIds dl r) + 1 := by
            unfold delPrefixLen
            simp [List.takeWhile_cons, hdel]
          rw [hids, hk3]
          have h1 : i + 1 + delPrefixLen env (popIds dl r) =
              i + (delPrefixLen env (popIds dl r) + 1) := by omega
          have h2 : (dl ++ [x]).length - (delPrefixLen env (popIds dl r) + 1) =
              dl.length - delPrefixLen env (popIds dl r) := by
            rw [hlen]
            omega
          rw [h1, h2, htake _ (by omega)]
          simp
      · rw [if_neg hdel]
        have hk0 : delPrefixLen env (popIds (dl ++ [x]) (r + 1)) = 0 := by
          rw [hids]
          unfold delPrefixLen
          simp [List.takeWhile_cons, hdel]
        rw [if_neg (by rw [hk0]; omega), hk0, hids]
        simp

/-- C3: `hotplugRemoveCPUs(n)` rejects `n` beyond the hotplugged count with
`(0, error)` and an unchanged list; otherwise it pops the last `n` entries in
reverse (LIFO) order issuing `device_del` per popped id, returning `(n, store
result)` on full success, and on a per-step failure after `i` successful
removals returns `(i, error)` with exactly those `i` entries removed and the
state persisted. -/
theorem c3_hotplugRemoveCPUs_spec (env : CpuEnv) (st : List String) (n : Nat) :
    (n > st.length →
      hotplugRemoveCPUs env st n =
        ((0, some ("Unable to remove " ++ toString n ++ " CPUs, currently there are only "
          ++ toString st.length ++ " hotplugged CPUs")), st, [])) ∧
    (n ≤ st.length →
      (delPrefixLen env (popIds st n) = n →
        hotplugRemoveCPUs env st n =
          ((n, storeRes env.storeOk), st.take (st.length - n),
            (popIds st n).map Cmd.deviceDel ++ [Cmd.storeState])) ∧
      (delPrefixLen env (popIds st n) ≠ n →
        hotplugRemoveCPUs env st n =
          ((delPrefixLen env (popIds st n),
            some ("failed to hotunplug CPUs, only "
              ++ toString (delPrefixLen env (popIds st n))
              ++ " CPUs were hotunplugged")),
            st.take (st.length - delPrefixLen env (popIds st n)),
            ((popIds st n).take (delPrefixLen env (popIds st n) + 1)).map
              Cmd.deviceDel ++ [Cmd.storeState]))) := by
  refine ⟨fun hgt => ?_, fun hle => ⟨fun hk => ?_, fun hk => ?_⟩⟩
  · unfold hotplugRemoveCPUs
    rw [if_pos hgt]
  · unfold hotplugRemoveCPUs
    rw [if_neg (by omega), removeCPUsLoop_spec env n st 0 hle, if_pos hk]
    simp
  · unfold hotplugRemoveCPUs
    rw [if_neg (by omega), removeCPUsLoop_spec env n st 0 hle, if_neg hk]
    simp

/-- Witness for C3: concrete success (two pops in LIFO order), a concrete
over-count rejection, and a concrete mid-sequence failure that persists. -/
theorem c3_hotplugRemoveCPUs_spec_witness :
    hotplugRemoveCPUs {} ["cpu-0", "cpu-1"] 2 =
        ((2, none), [], [Cmd.deviceDel "cpu-1", Cmd.deviceDel "cpu-0", Cmd.storeState]) ∧
      hotplugRemoveCPUs {} ["cpu-0"] 2 =
        ((0, some ("Unable to remove " ++ toString 2 ++ " CPUs, currently there are only "
          ++ toString 1 ++ " hotplugged CPUs")), ["cpu-0"], []) := by
  constructor
  · have h := (c3_hotplugRemoveCPUs_spec {} ["cpu-0", "cpu-1"] 2).2 (by norm_num)
    rw [h.1 (by rfl)]
    rfl
  · have h := (c3_hotplugRemoveCPUs_spec {} ["cpu-0"] 2).1 (by norm_num)
    rw [h]
    rfl

/-- Invariants of the CPU-add candidate loop: the vCPU list only grows at the
tail, its growth equals the returned count, an error-free return means the
requested amount was reached, and every appended id is `cpu-<position>`. -/
theorem addCPUsLoop_spec (env : CpuEnv) (machineType : String) (amount : Nat) :
    ∀ (cands : List HotpluggableCPU) (st : List String) (count : Nat),
      st <+: (addCPUsLoop env machineType amount cands st count).2.1 ∧
      count ≤ (addCPUsLoop env machineType amount cands st count).1.1 ∧
      (addCPUsLoop env machineType amount cands st count).2.1.length =
        st.length + ((addCPUsLoop env machineType amount cands st count).1.1 - count) ∧
      ((addCPUsLoop env machineType amount cands st count).1.2 = none →
        (addCPUsLoop env machineType amount cands st count).1.1 = amount) ∧
      (∀ j, st.length ≤ j → j < (addCPUsLoop env machineType amount cands st count).2.1.length →
        (addCPUsLoop env machineType amount cands st count).2.1[j]? =
          some ("cpu-" ++ toString j)) := by
  intro cands
  induction cands with
  | nil =>
    intro st count
    refine ⟨List.prefix_refl st, Nat.le_refl count, by simp [addCPUsLoop], ?_, ?_⟩
    · intro h
      simp [addCPUsLoop] at h
    · intro j hge hj
      simp only [addCPUsLoop] at hj
      omega
  | cons hc rest ih =>
    intro st count
    rw [addCPUsLoop]
    by_cases hqom : hc.QOMPath ≠ ""
    · rw [if_pos hqom]
      exact ih st count
    · rw [if_neg hqom]
      simp only []
      generalize (if machineType = "pseries" ∨ machineType = "s390-ccw-virtio" then ""
        else toString hc.Socket) = socketID
      generalize (if machineType = "pseries" ∨ machineType = "s390-ccw-virtio" then ""
        else toString hc.Die) = dieID
      generalize (if machineType = "pseries" ∨ machineType = "s390-ccw-virtio" then ""
        else toString hc.Thread) = threadID
      split
      · split
        · rename_i hadd hdone
          refine ⟨List.prefix_append st _, (by omega : count ≤ amount), by simp; omega,
            fun _ => rfl, ?_⟩
          intro j hge hj
          simp only [List.length_append, List.length_singleton] at hj
          have hj' : j = st.length := by omega
          subst hj'
          rw [List.getElem?_append_right (Nat.le_refl _)]
          simp
        · rename_i hadd hdone
          obtain ⟨ihpre, ihcount, ihlen, iherr, ihids⟩ :=
            ih (st ++ ["cpu-" ++ toString st.length]) (count + 1)
          refine ⟨(List.prefix_append st _).trans ihpre,
            (by omega : count ≤ (addCPUsLoop env machineType amount rest
              (st ++ ["cpu-" ++ toString st.length]) (count + 1)).1.1), ?_, iherr, ?_⟩
          · simp only [List.length_append, List.length_singleton] at ihlen
            simp only [ihlen]
            omega
          · intro j hge hj
            by_cases hjs : st.length + 1 ≤ j
            · exact ihids j (by simpa using hjs) hj
            · have hj' : j = st.length := by omega
              subst hj'
              obtain ⟨t, ht⟩ := ihpre
              rw [← ht, List.getElem?_append, if_pos (by simp),
                List.getElem?_append_right (Nat.le_refl _)]
              simp
      · exact ih st count

/-- C4 counterexample: with one present vCPU and `DefaultMaxVCPUs = 1`, the
request `hotplugAddCPUs(1)` is clamped to zero and returns error-free with
the hotplugged list unchanged, so a successful call need not grow the list by
`n`. -/
theorem c4_clamp_counterexample :
    (hotplugAddCPUs { DefaultMaxVCPUs := 1 } { queryHotpluggableCPUs := .ok [] }
        1 [] 1).1.2 = none ∧
      (hotplugAddCPUs { DefaultMaxVCPUs := 1 } { queryHotpluggableCPUs := .ok [] }
        1 [] 1).2.1.length ≠ ([] : List String).length + 1 := by
  exact ⟨rfl, by decide⟩

/-- C4 (amended): after any error-free `hotplugAddCPUs(n)` returning count
`r`, the list grows by exactly `r` (which equals `n` whenever the request
does not exceed the max-vCPU budget), the pre-call list is a prefix of the
post-call list, and every appended entry has id `cpu-<k>` with `k` the length
of the list immediately before that entry was appended. -/
theorem c4_hotplugAddCPUs_append (cfg : HypervisorConfig) (env : CpuEnv)
    (smpCPUs : Nat) (st : List String) (n : Nat)
    (herr : (hotplugAddCPUs cfg env smpCPUs st n).1.2 = none) :
    (hotplugAddCPUs cfg env smpCPUs st n).2.1.length =
        st.length + (hotplugAddCPUs cfg env smpCPUs st n).1.1 ∧
      st <+: (hotplugAddCPUs cfg env smpCPUs st n).2.1 ∧
      (∀ j, st.length ≤ j → j < (hotplugAddCPUs cfg env smpCPUs st n).2.1.length →
        (hotplugAddCPUs cfg env smpCPUs st n).2.1[j]? = some ("cpu-" ++ toString j)) ∧
      (smpCPUs + st.length + n ≤ cfg.DefaultMaxVCPUs →
        (hotplugAddCPUs cfg env smpCPUs st n).1.1 = n) := by
  unfold hotplugAddCPUs at herr ⊢
  simp only [] at herr ⊢
  set amount := if smpCPUs + st.length + n > cfg.DefaultMaxVCPUs then
      (cfg.DefaultMaxVCPUs + 4294967296 - (smpCPUs + st.length)) % 4294967296
    else n with hamount
  by_cases h0 : amount = 0
  · rw [if_pos h0] at herr ⊢
    refine ⟨by simp, List.prefix_refl st, ?_, ?_⟩
    · intro j hge hj
      simp only [] at hj
      omega
    · intro hbudget
      have : amount = n := by
        rw [hamount, if_neg (by omega)]
      simp only []
      omega
  · rw [if_neg h0] at herr ⊢
    cases hquery : env.queryHotpluggableCPUs with
    | error e =>
      rw [hquery] at herr
      simp at herr
    | ok cands =>
      rw [hquery] at herr
      cases hmach : env.archMachine with
      | error e =>
        rw [hmach] at herr
        simp at herr
      | ok machine =>
        rw [hmach] at herr
        obtain ⟨ihpre, ihcount, ihlen, iherr, ihids⟩ :=
          addCPUsLoop_spec env machine.typ amount cands st 0
        have herr2 : (addCPUsLoop env machine.typ amount cands st 0).1.2 = none := herr
        refine ⟨?_, ihpre, fun j hge hj => ihids j hge hj, ?_⟩
        · show (addCPUsLoop env machine.typ amount cands st 0).2.1.length =
            st.length + (addCPUsLoop env machine.typ amount cands st 0).1.1
          rw [ihlen]
          omega
        · intro hbudget
          show (addCPUsLoop env machine.typ amount cands st 0).1.1 = n
          have hn : amount = n := by
            rw [hamount, if_neg (by omega)]
          rw [← hn]
          exact iherr herr2

/-- Witness for C4's amended theorem: two CPUs added error-free onto an empty
list under a sufficient budget. -/
theorem c4_hotplugAddCPUs_append_witness :
    (hotplugAddCPUs { DefaultMaxVCPUs := 4 }
        { queryHotpluggableCPUs := .ok [{ typ := "host-x86_64-cpu" },
            { typ := "host-x86_64-cpu" }] } 1 [] 2).1.2 = none ∧
      (hotplugAddCPUs { DefaultMaxVCPUs := 4 }
        { queryHotpluggableCPUs := .ok [{ typ := "host-x86_64-cpu" },
            { typ := "host-x86_64-cpu" }] } 1 [] 2).2.1.length = 0 + 2 := by
  refine ⟨rfl, ?_⟩
  have h := c4_hotplugAddCPUs_append { DefaultMaxVCPUs := 4 }
    { queryHotpluggableCPUs := .ok [{ typ := "host-x86_64-cpu" },
        { typ := "host-x86_64-cpu" }] } 1 [] 2 rfl
  rw [h.1, h.2.2.2 (by norm_num)]
  rfl

/-- `getQemuMachine` succeeds whenever the arch reports a machine. -/
theorem getQemuMachine_ok (cfg : HypervisorConfig) {am : Except String Machine}
    {m : Machine} (hm : am = .ok m) :
    ∃ mm, getQemuMachine cfg am = Except.ok mm := by
  unfold getQemuMachine
  rw [hm]
  split
  · rename_i heq
    simp at heq
  · split <;> exact ⟨_, rfl⟩

/-- C5: whenever virtio-fs or a file-backed memory root dir is configured
together with boot-to-be-template or boot-from-template, `createSandbox` —
its preliminary steps succeeding — returns exactly the templating-conflict
error and produces no launch configuration. -/
theorem c5_templating_conflict (arch : Arch) (cfg : HypervisorConfig) (env : CreateEnv)
    (id : String)
    (hsetup : env.setupErr = none)
    (hmach : ∃ m, env.archMachine = .ok m)
    (hmem : ∃ kb, env.hostMemKb = .ok kb ∧ kb ≠ 0)
    (hkernel : ∃ p, env.kernelPath = .ok p)
    (hinitrd : ∃ p, env.initrdPath = .ok p)
    (hfs : cfg.SharedFS = .VirtioFS ∨ cfg.FileBackedMemRootDir ≠ "")
    (htmpl : cfg.BootToBeTemplate = true ∨ cfg.BootFromTemplate = true) :
    createSandbox arch cfg env id =
      .error "VM templating has been enabled with either virtio-fs or file backed memory and this configuration will not work" := by
  obtain ⟨m, hm⟩ := hmach
  obtain ⟨kb, hkb, hkb0⟩ := hmem
  obtain ⟨kp, hkp⟩ := hkernel
  obtain ⟨ip, hip⟩ := hinitrd
  obtain ⟨mm, hmm⟩ := getQemuMachine_ok cfg hm
  have hhost : hostMemMB env.hostMemKb = .ok (kb / 1024) := by
    unfold hostMemMB
    rw [hkb]
    simp [hkb0]
  rcases hfs with hfs | hfs <;> rcases htmpl with ht | ht <;>
    simp [createSandbox, hsetup, hmm, hhost, hkp, hip, hfs, ht, templatingConflictMsg,
      bind, Except.bind, pure, Except.pure, throw, throwThe, MonadExceptOf.throw]

/-- Witness for C5: virtio-fs plus boot-to-be-template with healthy
environment oracles yields exactly the conflict error. -/
theorem c5_templating_conflict_witness :
    createSandbox {} { SharedFS := .VirtioFS, BootToBeTemplate := true }
        { hostMemKb := .ok 4194304 } "sb" =
      .error "VM templating has been enabled with either virtio-fs or file backed memory and this configuration will not work" :=
  c5_templating_conflict {} { SharedFS := .VirtioFS, BootToBeTemplate := true }
    { hostMemKb := .ok 4194304 } "sb" rfl ⟨{}, rfl⟩ ⟨4194304, rfl, by norm_num⟩
    ⟨"", rfl⟩ ⟨"", rfl⟩ (Or.inl rfl) (Or.inl rfl)

/-- C7: with templating off and the (virtio-fs or file-backed) memory target
path absent on disk, `createSandbox` — its other steps succeeding — returns a
launch configuration whose `FileBackedMem` and `MemShared` knobs are off and
whose memory path is empty. -/
theorem c7_nonexistent_membackend_downgrade (arch : Arch) (cfg : HypervisorConfig)
    (env : CreateEnv) (id : String)
    (hsetup : env.setupErr = none)
    (hmach : ∃ m, env.archMachine = .ok m)
    (hmem : ∃ kb, env.hostMemKb = .ok kb ∧ kb ≠ 0)
    (hkernel : ∃ p, env.kernelPath = .ok p)
    (hinitrd : ∃ p, env.initrdPath = .ok p)
    (hfs : cfg.SharedFS = .VirtioFS ∨ cfg.FileBackedMemRootDir ≠ "")
    (hb1 : cfg.BootToBeTemplate = false)
    (hb2 : cfg.BootFromTemplate = false)
    (hstat : env.statExists (if cfg.FileBackedMemRootDir ≠ "" then cfg.FileBackedMemRootDir
      else fallbackFileBackedMemDir) = false)
    (harch : ∀ a b c, (arch.memoryTopology a b c).path = "")
    (huuid : env.uuid ≠ "")
    (hqmps : ∃ p, env.qmpSocketPath = .ok p)
    (hbd : env.buildDevicesErr = none)
    (hfw : ∃ p, env.firmwarePath = .ok p)
    (hqp : ∃ p, env.qemuPath = .ok p)
    (hrng : env.rngErr = none) :
    (createSandbox arch cfg env id).map
        (fun c => (c.knobs.FileBackedMem, c.knobs.MemShared, c.memory.path)) =
      .ok (false, false, "") := by
  obtain ⟨m, hm⟩ := hmach
  obtain ⟨kb, hkb, hkb0⟩ := hmem
  obtain ⟨kp, hkp⟩ := hkernel
  obtain ⟨ip, hip⟩ := hinitrd
  obtain ⟨qs, hqs⟩ := hqmps
  obtain ⟨fw, hfw'⟩ := hfw
  obtain ⟨qp, hqp'⟩ := hqp
  obtain ⟨mm, hmm⟩ := getQemuMachine_ok cfg hm
  have hhost : hostMemMB env.hostMemKb = .ok (kb / 1024) := by
    unfold hostMemMB
    rw [hkb]
    simp [hkb0]
  have hsfbm : ∀ knobs memory, setupFileBackedMem cfg env.statExists knobs memory =
      (knobs, memory) := by
    intro knobs memory
    have hstat2 := hstat
    simp only [ne_eq, ite_not] at hstat2
    simp [setupFileBackedMem, hstat, hstat2]
  rcases hfs with hfs | hfs <;> by_cases hhp : cfg.HugePages = true <;>
    simp [createSandbox, hsetup, hmm, hhost, hkp, hip, hfs, hb1, hb2, hsfbm, harch,
      huuid, hqs, hbd, hfw', hqp', hrng, setupTemplate, hhp, Bool.not_eq_true,
      bind, Except.bind, pure, Except.pure, throw, throwThe, MonadExceptOf.throw] <;>
    simp [Except.map, harch]

/-- Witness for C7: a nonexistent file-backed-memory root dir downgrades the
knobs while `createSandbox` still succeeds. -/
theorem c7_nonexistent_membackend_downgrade_witness :
    (createSandbox {} { FileBackedMemRootDir := "/nonexistent" }
        { hostMemKb := .ok 4194304, statExists := fun _ => false } "sb").map
        (fun c => (c.knobs.FileBackedMem, c.knobs.MemShared, c.memory.path)) =
      .ok (false, false, "") :=
  c7_nonexistent_membackend_downgrade {} { FileBackedMemRootDir := "/nonexistent" }
    { hostMemKb := .ok 4194304, statExists := fun _ => false } "sb"
    rfl ⟨{}, rfl⟩ ⟨4194304, rfl, by norm_num⟩ ⟨"", rfl⟩ ⟨"", rfl⟩
    (Or.inr (by decide)) rfl rfl rfl (fun a b c => rfl) (by decide)
    ⟨"", rfl⟩ rfl ⟨"", rfl⟩ ⟨"", rfl⟩ rfl

/-- A bridge that does not hold `ID` refuses to remove it. -/
theorem Bridge.RemoveDevice_of_fresh {b : Bridge} {ID : String}
    (h : ∀ p ∈ b.devices, p.2 ≠ ID) : b.RemoveDevice ID = none := by
  unfold Bridge.RemoveDevice
  rw [if_neg]
  intro hany
  simp only [List.any_eq_true, beq_iff_eq] at hany
  obtain ⟨p, hp, hpid⟩ := hany
  exact h p hp hpid

/-- A successful allocation prepends the new mapping to the slot map. -/
theorem Bridge.AddDevice_shape {b : Bridge} {ID : String} {slot : Nat} {b' : Bridge}
    (h : b.AddDevice ID = some (slot, b')) :
    b' = { b with devices := (slot, ID) :: b.devices } := by
  unfold Bridge.AddDevice at h
  cases hf : (List.range' 1 b.maxCapacity).find? (fun i => ! b.devices.any (·.1 == i)) with
  | none => rw [hf] at h; simp at h
  | some s =>
    rw [hf] at h
    simp only [Option.some.injEq, Prod.mk.injEq] at h
    rw [← h.2, ← h.1]

/-- Removing `ID` right after allocating it restores the bridge exactly. -/
theorem Bridge.RemoveDevice_after_add {b : Bridge} {ID : String} {slot : Nat} {b' : Bridge}
    (h : b.AddDevice ID = some (slot, b')) : b'.RemoveDevice ID = some b := by
  rw [Bridge.AddDevice_shape h]
  unfold Bridge.RemoveDevice
  rw [if_pos (by simp)]
  simp [List.eraseP_cons]

/-- The release loop after a successful allocation restores the whole bridge
list, provided the device id was fresh: earlier bridges refuse the removal
and the allocating bridge gives back its previous slot map. -/
theorem removeDeviceFromBridgeLoop_after_add {ID : String} {t : BusType} :
    ∀ {bridges : List Bridge} {s : String} {br : Bridge} {bridges' : List Bridge},
      addDeviceToBridgeLoop ID t bridges = some (s, br, bridges') →
      (∀ b ∈ bridges, ∀ p ∈ b.devices, p.2 ≠ ID) →
      ∀ lastErr, removeDeviceFromBridgeLoop ID bridges' lastErr = (none, bridges) := by
  intro bridges
  induction bridges with
  | nil => intro s br bridges' h; simp [addDeviceToBridgeLoop] at h
  | cons b rest ih =>
    intro s br bridges' h hfresh lastErr
    rw [addDeviceToBridgeLoop] at h
    by_cases hty : t ≠ b.typ
    · rw [if_pos hty] at h
      cases hrec : addDeviceToBridgeLoop ID t rest with
      | none => rw [hrec] at h; exact absurd h (by simp)
      | some r =>
        obtain ⟨s', br', rest'⟩ := r
        rw [hrec] at h
        simp only [Option.some.injEq, Prod.mk.injEq] at h
        obtain ⟨hs, hb, hr⟩ := h
        subst hr
        rw [removeDeviceFromBridgeLoop,
          Bridge.RemoveDevice_of_fresh (hfresh b (List.mem_cons_self b rest))]
        simp only []
        rw [ih hrec (fun b2 hb2 => hfresh b2 (List.mem_cons_of_mem b hb2)) _]
    · rw [if_neg hty] at h
      cases hadd : b.AddDevice ID with
      | some p =>
        obtain ⟨addr, b'⟩ := p
        rw [hadd] at h
        have hbr : bridges' = b' :: rest := by
          cases t with
          | CCW => simp only [Option.some.injEq, Prod.mk.injEq] at h; exact h.2.2.symm
          | PCI => simp only [Option.some.injEq, Prod.mk.injEq] at h; exact h.2.2.symm
          | PCIE => simp only [Option.some.injEq, Prod.mk.injEq] at h; exact h.2.2.symm
        subst hbr
        rw [removeDeviceFromBridgeLoop, Bridge.RemoveDevice_after_add hadd]
      | none =>
        rw [hadd] at h
        cases hrec : addDeviceToBridgeLoop ID t rest with
        | none => rw [hrec] at h; exact absurd h (by simp)
        | some r =>
          obtain ⟨s', br', rest'⟩ := r
          rw [hrec] at h
          simp only [Option.some.injEq, Prod.mk.injEq] at h
          obtain ⟨hs, hb, hr⟩ := h
          subst hr
          rw [removeDeviceFromBridgeLoop,
            Bridge.RemoveDevice_of_fresh (hfresh b (List.mem_cons_self b rest))]
          simp only []
          rw [ih hrec (fun b2 hb2 => hfresh b2 (List.mem_cons_of_mem b hb2)) _]

/-- Releasing a freshly allocated device restores the pre-allocation bridge
list. -/
theorem removeDeviceFromBridge_after_add {bridges : List Bridge} {ID : String}
    {t : BusType} {s : String} {br : Bridge} {bridges' : List Bridge}
    (h : addDeviceToBridge bridges ID t = .ok (s, br, bridges'))
    (hfresh : ∀ b ∈ bridges, ∀ p ∈ b.devices, p.2 ≠ ID) :
    removeDeviceFromBridge bridges' ID = (none, bridges) := by
  unfold addDeviceToBridge at h
  split at h
  · exact absurd h (by simp)
  · cases hloop : addDeviceToBridgeLoop ID t bridges with
    | none => rw [hloop] at h; exact absurd h (by simp)
    | some r =>
      rw [hloop] at h
      simp only [Except.ok.injEq] at h
      subst h
      exact removeDeviceFromBridgeLoop_after_add hloop hfresh none

/-- Rollback of the VirtioBlock hotplug-add flow: on every error return the
bridge table equals its pre-call state. -/
theorem blockAdd_rollback (cfg : HypervisorConfig) (env : BlockEnv) (st : QemuState)
    (drive : BlockDrive) (devID : String)
    (hdrv : cfg.BlockDeviceDriver = .VirtioBlock)
    (hfresh : ∀ b ∈ st.bridges, ∀ p ∈ b.devices, p.2 ≠ drive.ID) :
    ∀ e, (hotplugAddBlockDevice cfg env st drive devID).1 = some e →
      (hotplugAddBlockDevice cfg env st drive devID).2.1.bridges = st.bridges := by
  intro e herr
  unfold hotplugAddBlockDevice at herr ⊢
  rw [hdrv] at herr ⊢
  cases hba : env.blockdevAddOk with
  | false => simp [hba]
  | true =>
    cases hadd2 : addDeviceToBridge st.bridges drive.ID BusType.PCI with
    | error e2 => simp
    | ok r =>
      obtain ⟨addr, bridge, bridges'⟩ := r
      cases hpci : env.pciDeviceAddOk with
      | true =>
        rw [hadd2] at herr
        simp [hba, hpci] at herr
      | false =>
        simp [hba, hpci]
        rw [removeDeviceFromBridge_after_add hadd2 hfresh]

/-- The bridged VFIO hotplug-add flow never undoes a successful slot
allocation: the returned bridge table is the allocated one on the success
path and on every subsequent failure path alike, because the slot-release
defer tests the `err` shadowed at the allocation, which no later statement
assigns. -/
theorem vfioAdd_keeps_slot (env : VFIOEnv) (st : QemuState) (device : VFIODev)
    (conn : Bool) (trq : List Cmd) (addr : String) (bridge : Bridge)
    (bridges' : List Bridge)
    (hq : qmpSetup env.qmp st.connected = (none, conn, trq))
    (hroot : st.hotplugVFIOOnRootBus = false)
    (hadd : addDeviceToBridge st.bridges device.ID .PCI = .ok (addr, bridge, bridges')) :
    (hotplugVFIODevice env st device .addDevice).2.1.bridges = bridges' := by
  unfold hotplugVFIODevice
  cases htyp : device.typ with
  | VFIODeviceNormalType =>
    cases hp : env.pciVfioAddOk with
    | true => simp [hq, hroot, hadd, htyp, hp]
    | false => simp [hq, hroot, hadd, htyp, hp]
  | VFIODeviceMediatedType =>
    cases hp : env.pciMediatedAddOk with
    | true => simp [hq, hroot, hadd, htyp, hp]
    | false => simp [hq, hroot, hadd, htyp, hp]
  | VFIODeviceErrorType => simp [hq, hroot, hadd, htyp]

/-- When the machine lookup succeeds, the network hotplug-add flow keeps the
freshly allocated slot on the success path and on a failed `device_add`
alike: the slot-release defer tests the `err` shadowed at the allocation,
and only the machine-lookup assignment writes that variable. -/
theorem netAdd_keeps_slot (cfg : HypervisorConfig) (env : NetEnv) (st : QemuState)
    (endpoint : Endpoint) (conn : Bool) (trq trnet : List Cmd) (addr : String)
    (bridge : Bridge) (bridges' : List Bridge) (machine : Machine)
    (hq : qmpSetup env.qmp st.connected = (none, conn, trq))
    (hot : endpoint.typ ≠ .OtherEndpointType)
    (hnet : hotAddNetDevice env endpoint.tap.Name endpoint.tap.VMFds
      endpoint.tap.VhostFds = (none, trnet))
    (hadd : addDeviceToBridge st.bridges endpoint.tap.ID .PCI = .ok (addr, bridge, bridges'))
    (hmach : getQemuMachine cfg env.archMachine = .ok machine) :
    (hotplugNetDevice cfg env st endpoint .addDevice).2.1.bridges = bridges' := by
  unfold hotplugNetDevice
  by_cases hccw : machine.typ = "s390-ccw-virtio"
  · cases hc : env.netCcwAddOk with
    | true => simp [hq, hot, hnet, hadd, hmach, hccw, hc]
    | false => simp [hq, hot, hnet, hadd, hmach, hccw, hc]
  · cases hc : env.netPciAddOk with
    | true => simp [hq, hot, hnet, hadd, hmach, hccw, hc]
    | false => simp [hq, hot, hnet, hadd, hmach, hccw, hc]

/-- On a machine-lookup failure after the allocation the shadowed `err` is
assigned (`machine, err = q.getQemuMachine()`), so the network flow does
release the freshly allocated slot on that error return. -/
theorem netAdd_machine_fail_rollback (cfg : HypervisorConfig) (env : NetEnv)
    (st : QemuState) (endpoint : Endpoint) (conn : Bool) (trq trnet : List Cmd)
    (addr : String) (bridge : Bridge) (bridges' : List Bridge) (em : String)
    (hq : qmpSetup env.qmp st.connected = (none, conn, trq))
    (hot : endpoint.typ ≠ .OtherEndpointType)
    (hnet : hotAddNetDevice env endpoint.tap.Name endpoint.tap.VMFds
      endpoint.tap.VhostFds = (none, trnet))
    (hfresh : ∀ b ∈ st.bridges, ∀ p ∈ b.devices, p.2 ≠ endpoint.tap.ID)
    (hadd : addDeviceToBridge st.bridges endpoint.tap.ID .PCI = .ok (addr, bridge, bridges'))
    (hmach : getQemuMachine cfg env.archMachine = .error em) :
    (hotplugNetDevice cfg env st endpoint .addDevice).1 = some em ∧
      (hotplugNetDevice cfg env st endpoint .addDevice).2.1.bridges = st.bridges := by
  have hrel := removeDeviceFromBridge_after_add hadd hfresh
  unfold hotplugNetDevice
  simp [hq, hot, hnet, hadd, hmach, hrel]

/-- C1 counterexample: in the VirtioBlockCCW hotplug-add flow a failed
`device_add` leaves the freshly allocated CCW bridge slot in the slot map, so
the bridge state does not equal its pre-call state on that error return. -/
theorem c1_ccw_no_release_counterexample :
    ((hotplugAddBlockDevice { BlockDeviceDriver := .VirtioBlockCCW }
        { deviceAddOk := false } { bridges := [⟨.CCW, "ccw0", 3, 16, []⟩] }
        { ID := "d1", File := "/f" } "virtio-d1").1).isSome = true ∧
      (hotplugAddBlockDevice { BlockDeviceDriver := .VirtioBlockCCW }
        { deviceAddOk := false } { bridges := [⟨.CCW, "ccw0", 3, 16, []⟩] }
        { ID := "d1", File := "/f" } "virtio-d1").2.1.bridges =
        [⟨.CCW, "ccw0", 3, 16, [(1, "d1")]⟩] ∧
      [(⟨.CCW, "ccw0", 3, 16, [(1, "d1")]⟩ : Bridge)] ≠ [⟨.CCW, "ccw0", 3, 16, []⟩] := by
  refine ⟨rfl, rfl, by decide⟩

/-- C1 (amended): among the hotplug-add flows that allocate a bridge slot
before `device_add`, only the VirtioBlock block-device flow releases the
slot on every failure after the allocation, so only there the bridge state
equals its pre-call state on every error return.  The bridged VFIO flow
(`HotplugVFIOOnRootBus` false) keeps the allocation on every outcome, the
network flow keeps it whenever the machine lookup succeeds and releases it
only on a machine-lookup failure, and the VirtioBlockCCW flow never
releases it (its post-allocation failure is the counterexample). -/
theorem c1_bridge_rollback_on_error :
    (∀ (cfg : HypervisorConfig) (env : BlockEnv) (st : QemuState) (drive : BlockDrive)
      (devID : String), cfg.BlockDeviceDriver = .VirtioBlock →
      (∀ b ∈ st.bridges, ∀ p ∈ b.devices, p.2 ≠ drive.ID) →
      ∀ e, (hotplugAddBlockDevice cfg env st drive devID).1 = some e →
        (hotplugAddBlockDevice cfg env st drive devID).2.1.bridges = st.bridges) ∧
    (∀ (env : VFIOEnv) (st : QemuState) (device : VFIODev) (conn : Bool)
      (trq : List Cmd) (addr : String) (bridge : Bridge) (bridges' : List Bridge),
      qmpSetup env.qmp st.connected = (none, conn, trq) →
      st.hotplugVFIOOnRootBus = false →
      addDeviceToBridge st.bridges device.ID .PCI = .ok (addr, bridge, bridges') →
      (hotplugVFIODevice env st device .addDevice).2.1.bridges = bridges') ∧
    (∀ (cfg : HypervisorConfig) (env : NetEnv) (st : QemuState) (endpoint : Endpoint)
      (conn : Bool) (trq trnet : List Cmd) (addr : String) (bridge : Bridge)
      (bridges' : List Bridge) (machine : Machine),
      qmpSetup env.qmp st.connected = (none, conn, trq) →
      endpoint.typ ≠ .OtherEndpointType →
      hotAddNetDevice env endpoint.tap.Name endpoint.tap.VMFds endpoint.tap.VhostFds
        = (none, trnet) →
      addDeviceToBridge st.bridges endpoint.tap.ID .PCI = .ok (addr, bridge, bridges') →
      getQemuMachine cfg env.archMachine = .ok machine →
      (hotplugNetDevice cfg env st endpoint .addDevice).2.1.bridges = bridges') ∧
    (∀ (cfg : HypervisorConfig) (env : NetEnv) (st : QemuState) (endpoint : Endpoint)
      (conn : Bool) (trq trnet : List Cmd) (addr : String) (bridge : Bridge)
      (bridges' : List Bridge) (em : String),
      qmpSetup env.qmp st.connected = (none, conn, trq) →
      endpoint.typ ≠ .OtherEndpointType →
      hotAddNetDevice env endpoint.tap.Name endpoint.tap.VMFds endpoint.tap.VhostFds
        = (none, trnet) →
      (∀ b ∈ st.bridges, ∀ p ∈ b.devices, p.2 ≠ endpoint.tap.ID) →
      addDeviceToBridge st.bridges endpoint.tap.ID .PCI = .ok (addr, bridge, bridges') →
      getQemuMachine cfg env.archMachine = .error em →
      (hotplugNetDevice cfg env st endpoint .addDevice).1 = some em ∧
        (hotplugNetDevice cfg env st endpoint .addDevice).2.1.bridges = st.bridges) :=
  ⟨fun cfg env st drive devID hdrv hfresh =>
      blockAdd_rollback cfg env st drive devID hdrv hfresh,
    fun env st device conn trq addr bridge bridges' hq hroot hadd =>
      vfioAdd_keeps_slot env st device conn trq addr bridge bridges' hq hroot hadd,
    fun cfg env st endpoint conn trq trnet addr bridge bridges' machine
        hq hot hnet hadd hmach =>
      netAdd_keeps_slot cfg env st endpoint conn trq trnet addr bridge bridges'
        machine hq hot hnet hadd hmach,
    fun cfg env st endpoint conn trq trnet addr bridge bridges' em
        hq hot hnet hfresh hadd hmach =>
      netAdd_machine_fail_rollback cfg env st endpoint conn trq trnet addr bridge
        bridges' em hq hot hnet hfresh hadd hmach⟩

/-- Witness for C1's amended theorem: a failed PCI `device_add` of a block
device restores the single-bridge table; a failed VFIO or network
`device_add` keeps the freshly allocated slot; a failed machine lookup in
the network flow restores the table. -/
theorem c1_bridge_rollback_on_error_witness :
    ((hotplugAddBlockDevice { BlockDeviceDriver := .VirtioBlock }
        { pciDeviceAddOk := false } { bridges := [⟨.PCI, "pci0", 2, 30, []⟩] }
        { ID := "d1", File := "/f" } "virtio-d1").1).isSome = true ∧
      (hotplugAddBlockDevice { BlockDeviceDriver := .VirtioBlock }
        { pciDeviceAddOk := false } { bridges := [⟨.PCI, "pci0", 2, 30, []⟩] }
        { ID := "d1", File := "/f" } "virtio-d1").2.1.bridges =
        [⟨.PCI, "pci0", 2, 30, []⟩] ∧
      (hotplugVFIODevice { pciVfioAddOk := false }
        { bridges := [⟨.PCI, "pci0", 2, 30, []⟩] } { ID := "vf1" }
        .addDevice).2.1.bridges = [⟨.PCI, "pci0", 2, 30, [(1, "vf1")]⟩] ∧
      (hotplugNetDevice {} { netPciAddOk := false }
        { bridges := [⟨.PCI, "pci0", 2, 30, []⟩] }
        { tap := { ID := "t1", Name := "tap1" } }
        .addDevice).2.1.bridges = [⟨.PCI, "pci0", 2, 30, [(1, "t1")]⟩] ∧
      (hotplugNetDevice {} { archMachine := .error "machine lookup failed" }
        { bridges := [⟨.PCI, "pci0", 2, 30, []⟩] }
        { tap := { ID := "t1", Name := "tap1" } }
        .addDevice).1 = some "machine lookup failed" ∧
      (hotplugNetDevice {} { archMachine := .error "machine lookup failed" }
        { bridges := [⟨.PCI, "pci0", 2, 30, []⟩] }
        { tap := { ID := "t1", Name := "tap1" } }
        .addDevice).2.1.bridges = [⟨.PCI, "pci0", 2, 30, []⟩] := by
  refine ⟨rfl, ?_, ?_, ?_, ?_, ?_⟩
  · exact c1_bridge_rollback_on_error.1 { BlockDeviceDriver := .VirtioBlock }
      { pciDeviceAddOk := false } { bridges := [⟨.PCI, "pci0", 2, 30, []⟩] }
      { ID := "d1", File := "/f" } "virtio-d1" rfl (by decide)
      "PCI device_add failed" rfl
  · exact c1_bridge_rollback_on_error.2.1 { pciVfioAddOk := false }
      { bridges := [⟨.PCI, "pci0", 2, 30, []⟩] } { ID := "vf1" } true
      [Cmd.qmpCapabilities] "01" ⟨.PCI, "pci0", 2, 30, [(1, "vf1")]⟩
      [⟨.PCI, "pci0", 2, 30, [(1, "vf1")]⟩] rfl rfl rfl
  · exact c1_bridge_rollback_on_error.2.2.1 {} { netPciAddOk := false }
      { bridges := [⟨.PCI, "pci0", 2, 30, []⟩] }
      { tap := { ID := "t1", Name := "tap1" } } true
      [Cmd.qmpCapabilities] [Cmd.netdevAdd "tap1"] "01"
      ⟨.PCI, "pci0", 2, 30, [(1, "t1")]⟩ [⟨.PCI, "pci0", 2, 30, [(1, "t1")]⟩]
      {} rfl (by decide) rfl rfl rfl
  · exact (c1_bridge_rollback_on_error.2.2.2 {}
      { archMachine := .error "machine lookup failed" }
      { bridges := [⟨.PCI, "pci0", 2, 30, []⟩] }
      { tap := { ID := "t1", Name := "tap1" } } true
      [Cmd.qmpCapabilities] [Cmd.netdevAdd "tap1"] "01"
      ⟨.PCI, "pci0", 2, 30, [(1, "t1")]⟩ [⟨.PCI, "pci0", 2, 30, [(1, "t1")]⟩]
      "machine lookup failed" rfl (by decide) rfl (by decide) rfl rfl).1
  · exact (c1_bridge_rollback_on_error.2.2.2 {}
      { archMachine := .error "machine lookup failed" }
      { bridges := [⟨.PCI, "pci0", 2, 30, []⟩] }
      { tap := { ID := "t1", Name := "tap1" } } true
      [Cmd.qmpCapabilities] [Cmd.netdevAdd "tap1"] "01"
      ⟨.PCI, "pci0", 2, 30, [(1, "t1")]⟩ [⟨.PCI, "pci0", 2, 30, [(1, "t1")]⟩]
      "machine lookup failed" rfl (by decide) rfl (by decide) rfl rfl).2

end KataQemu
